import Mathlib

/-!
Verification of the in-memory persistence layer of a typed graph execution
engine (`pydantic_graph`), shallowly embedded from
`pydantic_graph/persistence/memory.py` and, where the repository only ships
tests of a component, modelled from the specification document.

Conventions of the embedding:
* Python mutation of a dataclass field becomes functional record update.
* `async` context managers (`record_run`) become functions taking the body
  outcome (`Except Exn V`) and returning the updated store plus the
  propagated outcome; entry and exit of the region are separate functions
  composed by `record_run`, mirroring the code before and after `yield`.
* Python exceptions are `Exn`; `Exn.isException` is true exactly for
  subclasses of `Exception` (so it is false for `asyncio.CancelledError`,
  which derives only from `BaseException`); `except Exception` clauses
  therefore catch an `Exn` precisely when `isException` is true.
* `assert`, `raise LookupError`, `raise TypeError` become `Except PyError`.
* Wall-clock and monotonic instants are abstract `Nat` parameters (`now`
  for `_utils.now_utc()`, `elapsed` for `perf_counter() - start`; the
  monotonic clock guarantees `elapsed` is nonnegative, which `Nat` encodes).
* `copy.deepcopy` and `deep_copy()` of node payloads are external
  primitives; they are passed in as a `CopyOps` record so that aliasing
  claims can instantiate them with an explicit heap while other claims use
  the trivial instantiation.
-/

/-- Snapshot status, from the `SnapshotStatus` literal type:
`created | pending | running | success | error`. -/
inductive Status where
  | created
  | pending
  | running
  | success
  | error
deriving DecidableEq, Repr

/-- A Python exception value. `isException` is true when the exception class
derives from `Exception` (caught by `except Exception`), false for
`BaseException`-only classes such as `asyncio.CancelledError`. -/
structure Exn where
  isException : Bool
  name : String
deriving DecidableEq, Repr

/-- Errors raised by the persistence layer itself (`raise LookupError`,
failed `assert` statements, and the `TypeError` named by the spec). -/
inductive PyError where
  | lookupError : String → PyError
  | assertionError : String → PyError
  | typeError : String → PyError
deriving DecidableEq, Repr

/-- Little-endian decimal digits of `n`, with explicit fuel so the kernel
can evaluate it (`fuel ≥ n` suffices). -/
def decDigitsAux : Nat → Nat → List Nat
  | 0, _ => []
  | _ + 1, 0 => []
  | fuel + 1, n + 1 => (n + 1) % 10 :: decDigitsAux fuel ((n + 1) / 10)

/-- Decimal rendering of a natural number (the `seq` part of snapshot IDs). -/
def decRepr (n : Nat) : String :=
  if n = 0 then "0" else ((decDigitsAux n n).reverse.map Nat.digitChar).asString

/-- Modelled from the spec: snapshot IDs follow the scheme
`"{node_id}:{seq}"` (`"end:{seq}"` for end snapshots); the allocator code
is not part of the sources under verification. -/
def mkId (name : String) (seq : Nat) : String :=
  name ++ ":" ++ decRepr seq

/-- `NodeSnapshot`: a node about to run, from `pydantic_graph.persistence`.
`nodeName` models the node ID of the stored node object (its class name),
which the Python object carries implicitly. -/
structure NodeSnapshot (S N : Type) where
  state : S
  node : N
  nodeName : String
  start_ts : Option Nat := none
  duration : Option Nat := none
  status : Status := Status.created
  id : String
deriving DecidableEq, Repr

/-- `EndSnapshot`: the final step of a run. -/
structure EndSnapshot (S R : Type) where
  state : S
  result : R
  ts : Nat
  id : String
deriving DecidableEq, Repr

/-- The tagged snapshot union (`kind` in `node | end`). -/
inductive Snapshot (S N R : Type) where
  | node : NodeSnapshot S N → Snapshot S N R
  | endSnap : EndSnapshot S R → Snapshot S N R
deriving DecidableEq, Repr

/-- The `id` of a snapshot of either kind. -/
def Snapshot.id {S N R : Type} : Snapshot S N R → String
  | Snapshot.node s => s.id
  | Snapshot.endSnap s => s.id

/-- Whether a snapshot is a node snapshot. -/
def Snapshot.isNode {S N R : Type} : Snapshot S N R → Bool
  | Snapshot.node _ => true
  | Snapshot.endSnap _ => false

/-- External copying primitives (`copy.deepcopy`, `BaseNode.deep_copy`,
`End.deep_copy_data`), threading a world `W` (the Python heap). -/
structure CopyOps (W S N R : Type) where
  isNoneS : S → Bool
  deepcopyS : W → S → W × S
  deepcopyN : W → N → W × N
  deepcopyR : W → R → W × R

/-- `prep_state` from `memory.py`: return the state unchanged when deep
copy is off or the state is `None`, otherwise deep-copy it. -/
def prep_state {W S N R : Type} (ops : CopyOps W S N R) (deep_copy : Bool)
    (w : W) (state : S) : W × S :=
  if !deep_copy || ops.isNoneS state then (w, state) else ops.deepcopyS w state

/-- Trivial copy operations for claims not concerned with aliasing. -/
def idOps (S N R : Type) : CopyOps Unit S N R where
  isNoneS := fun _ => false
  deepcopyS := fun w s => (w, s)
  deepcopyN := fun w n => (w, n)
  deepcopyR := fun w r => (w, r)

/-- `SimpleStatePersistence`: in-memory persistence holding only the latest
snapshot. `counter` is the spec-modelled per-persistence ID allocator
(starting at 1), which in the sources lives outside `memory.py`. -/
structure SimpleStatePersistence (S N R : Type) where
  deep_copy : Bool := false
  last_snapshot : Option (Snapshot S N R) := none
  counter : Nat := 1
deriving DecidableEq, Repr

/-- `FullStatePersistence`: in-memory persistence holding the whole history.
`codec` models `_snapshots_type_adapter` (present or not, and which
`(StateType, RunEndType)` pair built it); `counter` is the spec-modelled
ID allocator. -/
structure FullStatePersistence (S N R : Type) where
  deep_copy : Bool := true
  history : List (Snapshot S N R) := []
  codec : Option (String × String) := none
  counter : Nat := 1
deriving DecidableEq, Repr

/-- The mutations performed on entry to the recording region, before the
body runs: `status = 'running'`, `start_ts = now_utc()`. -/
def NodeSnapshot.enterRun {S N : Type} (s : NodeSnapshot S N) (now : Nat) :
    NodeSnapshot S N :=
  { s with status := Status.running, start_ts := some now }

/-- The mutations performed on exit of the recording region:
`duration = perf_counter() - start` and the terminal status. -/
def NodeSnapshot.exitRun {S N : Type} (s : NodeSnapshot S N) (elapsed : Nat)
    (success : Bool) : NodeSnapshot S N :=
  { s with duration := some elapsed
         , status := if success then Status.success else Status.error }

/-- Apply `f` to the first snapshot whose `id` equals `sid`, when that
snapshot is a node snapshot (Python mutates the object found by
`next(s for s in self.history if s.id == snapshot_id)`). -/
def updateFirstNode {S N R : Type} (sid : String)
    (f : NodeSnapshot S N → NodeSnapshot S N) :
    List (Snapshot S N R) → List (Snapshot S N R)
  | [] => []
  | s :: rest =>
    if s.id == sid then
      (match s with
       | Snapshot.node ns => Snapshot.node (f ns)
       | x => x) :: rest
    else s :: updateFirstNode sid f rest

namespace FullStatePersistence

/-- `next(s for s in self.history if s.id == snapshot_id)`. -/
def find_snapshot {S N R : Type} (p : FullStatePersistence S N R)
    (sid : String) : Option (Snapshot S N R) :=
  p.history.find? (fun s => s.id == sid)

/-- Entry of `FullStatePersistence.record_run`, up to the `yield`: locate
the snapshot (`LookupError` when absent), assert it is a node snapshot,
set `status='running'` and `start_ts=now_utc()`. -/
def record_enter {S N R : Type} (p : FullStatePersistence S N R)
    (sid : String) (now : Nat) : Except PyError (FullStatePersistence S N R) :=
  match p.find_snapshot sid with
  | none => Except.error (PyError.lookupError ("No snapshot found with id=" ++ sid))
  | some (Snapshot.endSnap _) =>
      Except.error (PyError.assertionError "Only NodeSnapshot can be recorded")
  | some (Snapshot.node _) =>
      Except.ok { p with history := updateFirstNode sid (fun s => s.enterRun now) p.history }

/-- Exit of `FullStatePersistence.record_run`, after the `yield`: on a
normal body outcome set `duration` and `status='success'`; on an exception
caught by `except Exception` set `duration` and `status='error'` and
re-raise; any other raised value (e.g. `CancelledError`) passes through
the region untouched. -/
def record_exit {S N R V : Type} (p : FullStatePersistence S N R)
    (sid : String) (elapsed : Nat) (outcome : Except Exn V) :
    FullStatePersistence S N R × Except Exn V :=
  match outcome with
  | Except.ok v =>
      ({ p with history := updateFirstNode sid (fun s => s.exitRun elapsed true) p.history },
       Except.ok v)
  | Except.error e =>
      if e.isException then
        ({ p with history := updateFirstNode sid (fun s => s.exitRun elapsed false) p.history },
         Except.error e)
      else (p, Except.error e)

/-- `FullStatePersistence.record_run` as a whole: entry, body outcome,
exit. -/
def record_run {S N R V : Type} (p : FullStatePersistence S N R)
    (sid : String) (now elapsed : Nat) (outcome : Except Exn V) :
    Except PyError (FullStatePersistence S N R × Except Exn V) :=
  (p.record_enter sid now).map (fun p1 => p1.record_exit sid elapsed outcome)

/-- `FullStatePersistence.snapshot_node`: append a fresh `NodeSnapshot`
(with default status `created`), preparing the state per `prep_state` and
deep-copying the node payload when `deep_copy` is set. The ID is the
spec-modelled `"{node_id}:{seq}"` with the per-persistence counter. -/
def snapshot_node {W S N R : Type} (ops : CopyOps W S N R)
    (p : FullStatePersistence S N R) (w : W) (state : S) (next_node : N)
    (node_id : String) : FullStatePersistence S N R × W :=
  let ws := prep_state ops p.deep_copy w state
  let wn := if p.deep_copy then ops.deepcopyN ws.1 next_node else (ws.1, next_node)
  ({ p with
      history := p.history ++
        [Snapshot.node
          { state := ws.2, node := wn.2, nodeName := node_id
          , id := mkId node_id p.counter }]
    , counter := p.counter + 1 }, wn.1)

/-- `FullStatePersistence.snapshot_end`: append an `EndSnapshot`, preparing
the state and deep-copying the end data when `deep_copy` is set. -/
def snapshot_end {W S N R : Type} (ops : CopyOps W S N R)
    (p : FullStatePersistence S N R) (w : W) (state : S) (result : R)
    (now : Nat) : FullStatePersistence S N R × W :=
  let ws := prep_state ops p.deep_copy w state
  let wr := if p.deep_copy then ops.deepcopyR ws.1 result else (ws.1, result)
  ({ p with
      history := p.history ++
        [Snapshot.endSnap
          { state := ws.2, result := wr.2, ts := now, id := mkId "end" p.counter }]
    , counter := p.counter + 1 }, wr.1)

/-- `FullStatePersistence.restore`: the last history entry, if any. -/
def restore {S N R : Type} (p : FullStatePersistence S N R) :
    Option (Snapshot S N R) :=
  p.history.getLast?

/-- `FullStatePersistence.set_types`: build the codec only when it has not
been built yet. The returned flag records whether the `get_types` callback
was invoked (it is called only in the `None` branch of the source). -/
def set_types {S N R : Type} (p : FullStatePersistence S N R)
    (get_types : Unit → String × String) :
    FullStatePersistence S N R × Bool :=
  match p.codec with
  | none => ({ p with codec := some (get_types ()) }, true)
  | some _ => (p, false)

end FullStatePersistence

namespace SimpleStatePersistence

/-- Entry of `SimpleStatePersistence.record_run`, up to the `yield`: the
three `assert` statements, then `status='running'`, `start_ts=now_utc()`. -/
def record_enter {S N R : Type} (p : SimpleStatePersistence S N R)
    (sid : String) (now : Nat) :
    Except PyError (SimpleStatePersistence S N R) :=
  match p.last_snapshot with
  | none => Except.error (PyError.assertionError "No snapshot to record")
  | some (Snapshot.endSnap _) =>
      Except.error (PyError.assertionError "Only NodeSnapshot can be recorded")
  | some (Snapshot.node ns) =>
      if ns.id == sid then
        Except.ok { p with last_snapshot := some (Snapshot.node (ns.enterRun now)) }
      else
        Except.error (PyError.assertionError "snapshot_id must match the last snapshot ID")

/-- Exit of `SimpleStatePersistence.record_run`, after the `yield` (the
mutation targets `self.last_snapshot` as read at exit). -/
def record_exit {S N R V : Type} (p : SimpleStatePersistence S N R)
    (elapsed : Nat) (outcome : Except Exn V) :
    SimpleStatePersistence S N R × Except Exn V :=
  let upd := fun (success : Bool) =>
    match p.last_snapshot with
    | some (Snapshot.node ns) =>
        { p with last_snapshot := some (Snapshot.node (ns.exitRun elapsed success)) }
    | _ => p
  match outcome with
  | Except.ok v => (upd true, Except.ok v)
  | Except.error e =>
      if e.isException then (upd false, Except.error e) else (p, Except.error e)

/-- `SimpleStatePersistence.record_run` as a whole. -/
def record_run {S N R V : Type} (p : SimpleStatePersistence S N R)
    (sid : String) (now elapsed : Nat) (outcome : Except Exn V) :
    Except PyError (SimpleStatePersistence S N R × Except Exn V) :=
  (p.record_enter sid now).map (fun p1 => p1.record_exit elapsed outcome)

/-- `SimpleStatePersistence.snapshot_node`: overwrite `last_snapshot` with
a fresh `NodeSnapshot`. -/
def snapshot_node {W S N R : Type} (ops : CopyOps W S N R)
    (p : SimpleStatePersistence S N R) (w : W) (state : S) (next_node : N)
    (node_id : String) : SimpleStatePersistence S N R × W :=
  let ws := prep_state ops p.deep_copy w state
  let wn := if p.deep_copy then ops.deepcopyN ws.1 next_node else (ws.1, next_node)
  ({ p with
      last_snapshot := some (Snapshot.node
        { state := ws.2, node := wn.2, nodeName := node_id
        , id := mkId node_id p.counter })
    , counter := p.counter + 1 }, wn.1)

/-- `SimpleStatePersistence.snapshot_end`: overwrite `last_snapshot` with a
fresh `EndSnapshot`. -/
def snapshot_end {W S N R : Type} (ops : CopyOps W S N R)
    (p : SimpleStatePersistence S N R) (w : W) (state : S) (result : R)
    (now : Nat) : SimpleStatePersistence S N R × W :=
  let ws := prep_state ops p.deep_copy w state
  let wr := if p.deep_copy then ops.deepcopyR ws.1 result else (ws.1, result)
  ({ p with
      last_snapshot := some (Snapshot.endSnap
        { state := ws.2, result := wr.2, ts := now, id := mkId "end" p.counter })
    , counter := p.counter + 1 }, wr.1)

/-- `SimpleStatePersistence.restore`: return `last_snapshot`. -/
def restore {S N R : Type} (p : SimpleStatePersistence S N R) :
    Option (Snapshot S N R) :=
  p.last_snapshot

end SimpleStatePersistence

/-! ### Heap model for aliasing claims

A minimal model of the Python object store: deep-copying a value allocates a
fresh cell holding the captured value, so later writes through the original
reference cannot reach the copy. -/

/-- A heap of values with a bump allocator. -/
structure Heap (V : Type) where
  mem : Nat → V
  next : Nat

/-- Read the cell at address `a`. -/
def Heap.read {V : Type} (h : Heap V) (a : Nat) : V := h.mem a

/-- Mutate the cell at address `a` (Python in-place mutation of the object
the reference points to). -/
def Heap.write {V : Type} (h : Heap V) (a : Nat) (v : V) : Heap V :=
  { h with mem := fun i => if i = a then v else h.mem i }

/-- Allocate a fresh cell holding `v`. -/
def Heap.alloc {V : Type} (h : Heap V) (v : V) : Heap V × Nat :=
  ({ mem := fun i => if i = h.next then v else h.mem i, next := h.next + 1 }, h.next)

/-- Copy operations over the heap: states are optional references
(`none` is Python `None`), node payloads and end data are references;
deep copy allocates a fresh cell with the value read at capture time. -/
def heapOps (V : Type) : CopyOps (Heap V) (Option Nat) Nat Nat where
  isNoneS := Option.isNone
  deepcopyS := fun h s =>
    match s with
    | none => (h, none)
    | some a => ((h.alloc (h.read a)).1, some (h.alloc (h.read a)).2)
  deepcopyN := fun h a => h.alloc (h.read a)
  deepcopyR := fun h a => h.alloc (h.read a)

/-! ### JSON documents

Modelled from the spec: the JSON codec (`build_snapshot_list_type_adapter`,
a pydantic type adapter) is not part of the sources under verification.
A history document is a list of tagged records mirroring the snapshot
fields; the `id` is optional in a document and assigned on load when
absent, continuing after the allocator counter. -/

/-- A serialized node snapshot (`kind='node'`). -/
structure NodeDoc (S N : Type) where
  state : S
  node : N
  node_id : String
  start_ts : Option Nat
  duration : Option Nat
  status : Status
  id : Option String
deriving DecidableEq, Repr

/-- A serialized end snapshot (`kind='end'`). -/
structure EndDoc (S R : Type) where
  state : S
  result : R
  ts : Nat
  id : Option String
deriving DecidableEq, Repr

/-- A serialized snapshot, tagged by `kind`. -/
inductive SnapDoc (S N R : Type) where
  | node : NodeDoc S N → SnapDoc S N R
  | endSnap : EndDoc S R → SnapDoc S N R
deriving DecidableEq, Repr

/-- Serialize one snapshot; the `id` is always emitted. -/
def snapToDoc {S N R : Type} : Snapshot S N R → SnapDoc S N R
  | Snapshot.node s =>
      SnapDoc.node
        { state := s.state, node := s.node, node_id := s.nodeName
        , start_ts := s.start_ts, duration := s.duration, status := s.status
        , id := some s.id }
  | Snapshot.endSnap s =>
      SnapDoc.endSnap { state := s.state, result := s.result, ts := s.ts, id := some s.id }

/-- Deserialize one document: an `id` present in the document is kept; an
absent `id` is assigned from the allocator counter, which is then bumped. -/
def docToSnap {S N R : Type} (counter : Nat) :
    SnapDoc S N R → Snapshot S N R × Nat
  | SnapDoc.node d =>
      match d.id with
      | some i =>
          (Snapshot.node
            { state := d.state, node := d.node, nodeName := d.node_id
            , start_ts := d.start_ts, duration := d.duration, status := d.status
            , id := i }, counter)
      | none =>
          (Snapshot.node
            { state := d.state, node := d.node, nodeName := d.node_id
            , start_ts := d.start_ts, duration := d.duration, status := d.status
            , id := mkId d.node_id counter }, counter + 1)
  | SnapDoc.endSnap d =>
      match d.id with
      | some i =>
          (Snapshot.endSnap { state := d.state, result := d.result, ts := d.ts, id := i }, counter)
      | none =>
          (Snapshot.endSnap
            { state := d.state, result := d.result, ts := d.ts
            , id := mkId "end" counter }, counter + 1)

/-- Deserialize a document list, threading the allocator counter. -/
def assignIds {S N R : Type} (counter : Nat) :
    List (SnapDoc S N R) → List (Snapshot S N R) × Nat
  | [] => ([], counter)
  | d :: ds =>
      let r := docToSnap counter d
      let rest := assignIds r.2 ds
      (r.1 :: rest.1, rest.2)

namespace FullStatePersistence

/-- `FullStatePersistence.dump_json`: assert the codec has been set, then
serialize the history. -/
def dump_json {S N R : Type} (p : FullStatePersistence S N R) :
    Except PyError (List (SnapDoc S N R)) :=
  match p.codec with
  | none => Except.error (PyError.assertionError "type adapter must be set to use dump_json")
  | some _ => Except.ok (p.history.map snapToDoc)

/-- `FullStatePersistence.load_json`: assert the codec has been set, then
replace the history with the validated documents, assigning missing IDs. -/
def load_json {S N R : Type} (p : FullStatePersistence S N R)
    (docs : List (SnapDoc S N R)) :
    Except PyError (FullStatePersistence S N R) :=
  match p.codec with
  | none => Except.error (PyError.assertionError "type adapter must be set to use load_json")
  | some _ =>
      let r := assignIds p.counter docs
      Except.ok { p with history := r.1, counter := r.2 }

end FullStatePersistence

/-! ### The run engine

Modelled from the spec (section 4.E): the engine source (`graph.py`) is not
part of the sources under verification; the recording region it enters is
the `record_run` embedded above from `memory.py`. -/

/-- What a node run returns: the next node (with its node ID) or the
terminal `End` value. -/
inductive Step (N R : Type) where
  | next : N → String → Step N R
  | done : R → Step N R
deriving DecidableEq, Repr

/-- How a run can fail: a propagated exception, a persistence error, or
exhausted fuel (the embedding's bound on loop iterations). -/
inductive RunErr where
  | exn : Exn → RunErr
  | py : PyError → RunErr
  | fuelOut : RunErr
deriving DecidableEq, Repr

/-- Modelled from the spec: the run loop. Each iteration appends a node
snapshot for the pending step, enters the recording region around the
node body, and either recurses on the returned node, appends an end
snapshot and stops, or propagates the body exception. -/
def runLoop {S N R : Type} (run : N → S → Except Exn (Step N R × S))
    (now elapsed : Nat) (p : FullStatePersistence S N R) (state : S)
    (cursor : N) (cursor_id : String) :
    Nat → Except RunErr (R × S) × FullStatePersistence S N R
  | 0 => (Except.error RunErr.fuelOut, p)
  | fuel + 1 =>
    let sid := mkId cursor_id p.counter
    let p1 := (FullStatePersistence.snapshot_node (idOps S N R) p () state cursor cursor_id).1
    match p1.record_run sid now elapsed (run cursor state) with
    | Except.error pe => (Except.error (RunErr.py pe), p1)
    | Except.ok (p2, Except.error e) => (Except.error (RunErr.exn e), p2)
    | Except.ok (p2, Except.ok (Step.done r, state2)) =>
        (Except.ok (r, state2),
         (FullStatePersistence.snapshot_end (idOps S N R) p2 () state2 r now).1)
    | Except.ok (p2, Except.ok (Step.next n nid, state2)) =>
        runLoop run now elapsed p2 state2 n nid fuel

/-! ### Validator diagnostics

Modelled from the spec (section 4.D): the graph validator source is not
part of the sources under verification; the message formats are fixed by
the test suite (`test_one_bad_node`, `test_two_bad_nodes`,
`test_three_bad_nodes_separate`). -/

/-- Wrap a name in backticks. -/
def quoteName (s : String) : String := "`" ++ s ++ "`"

/-- Referrers listed with commas and a final `and`. -/
def referrerList : List String → String
  | [] => ""
  | [x] => quoteName x
  | [x, y] => quoteName x ++ ", and " ++ quoteName y
  | x :: rest => quoteName x ++ ", " ++ referrerList rest

/-- Modelled from the spec: the missing-node setup-error message. One
missing node produces a single sentence; several missing nodes produce a
multi-line report with one line per missing node. -/
def missingNodesMessage : List (String × List String) → String
  | [(x, refs)] =>
      quoteName x ++ " is referenced by " ++ referrerList refs ++
        " but not included in the graph."
  | missing =>
      String.intercalate "\n"
        ("Nodes are referenced in the graph but not included in the graph:" ::
          missing.map (fun m =>
            " " ++ quoteName m.1 ++ " is referenced by " ++ referrerList m.2))

/-- Value of a little-endian decimal digit list. -/
def valDigits : List Nat → Nat
  | [] => 0
  | d :: ds => d + 10 * valDigits ds

/-- Whether a persistence call raised a `TypeError`. -/
def raisedTypeError {B : Type} : Except PyError B → Bool
  | Except.error (PyError.typeError _) => true
  | _ => false

/-- Whether a persistence call raised a `LookupError`. -/
def raisedLookupError {B : Type} : Except PyError B → Bool
  | Except.error (PyError.lookupError _) => true
  | _ => false

/-- An insertion into a full-history store: either a node snapshot (state,
node payload, node ID) or an end snapshot (state, result, timestamp). -/
inductive InsertOp (S N R : Type) where
  | node : S → N → String → InsertOp S N R
  | endSnap : S → R → Nat → InsertOp S N R
deriving DecidableEq, Repr

/-- The name an insertion contributes to its snapshot ID. -/
def InsertOp.name {S N R : Type} : InsertOp S N R → String
  | InsertOp.node _ _ nid => nid
  | InsertOp.endSnap _ _ _ => "end"

/-- Apply a list of insertions to a full-history store. -/
def applyOps {S N R : Type} (p : FullStatePersistence S N R) :
    List (InsertOp S N R) → FullStatePersistence S N R
  | [] => p
  | InsertOp.node st nd nid :: rest =>
      applyOps (FullStatePersistence.snapshot_node (idOps S N R) p () st nd nid).1 rest
  | InsertOp.endSnap st r now :: rest =>
      applyOps (FullStatePersistence.snapshot_end (idOps S N R) p () st r now).1 rest

/-- The snapshot IDs of a history, in insertion order. -/
def idsOf {S N R : Type} (p : FullStatePersistence S N R) : List String :=
  p.history.map Snapshot.id

/-- The IDs the allocator hands out to consecutive insertions named by
`names`, starting at counter `c`. -/
def seqIds (c : Nat) : List String → List String
  | [] => []
  | name :: rest => mkId name c :: seqIds (c + 1) rest

/-- The `id` field of a document. -/
def docId {S N R : Type} : SnapDoc S N R → Option String
  | SnapDoc.node d => d.id
  | SnapDoc.endSnap d => d.id

/-- The name a document contributes to an assigned snapshot ID. -/
def docName {S N R : Type} : SnapDoc S N R → String
  | SnapDoc.node d => d.node_id
  | SnapDoc.endSnap _ => "end"

/-- A history invariant maintained by the run loop: every entry is a node
snapshot that finished successfully, and every ID was allocated below the
current counter from a colon-free name. -/
def GoodHist {S N R : Type} (p : FullStatePersistence S N R) : Prop :=
  (∀ s ∈ p.history, ∃ ns : NodeSnapshot S N,
    s = Snapshot.node ns ∧ ns.status = Status.success ∧ ns.duration.isSome) ∧
  (∀ s ∈ p.history, ∃ nm k, ':' ∉ nm.data ∧ 1 ≤ k ∧ k < p.counter ∧
    Snapshot.id s = mkId nm k) ∧
  1 ≤ p.counter

/-! ### Properties of the decimal ID rendering -/

/-- All digits produced by `decDigitsAux` are decimal digits. -/
theorem decDigitsAux_lt10 : ∀ fuel n, ∀ d ∈ decDigitsAux fuel n, d < 10 := by
  intro fuel
  induction fuel with
  | zero => intro n d hd; simp [decDigitsAux] at hd
  | succ fuel ih =>
    intro n d hd
    match n with
    | 0 => simp [decDigitsAux] at hd
    | m + 1 =>
      simp only [decDigitsAux, List.mem_cons] at hd
      rcases hd with h | h
      · subst h; exact Nat.mod_lt _ (by norm_num)
      · exact ih _ _ h

/-- `decDigitsAux` digits evaluate back to the number when the fuel
suffices. -/
theorem valDigits_decDigitsAux :
    ∀ fuel n, n ≤ fuel → valDigits (decDigitsAux fuel n) = n := by
  intro fuel
  induction fuel with
  | zero =>
    intro n h
    interval_cases n
    simp [decDigitsAux, valDigits]
  | succ fuel ih =>
    intro n h
    match n with
    | 0 => simp [decDigitsAux, valDigits]
    | m + 1 =>
      have hlt : (m + 1) / 10 < m + 1 := Nat.div_lt_self (Nat.succ_pos m) (by norm_num)
      have hdiv : (m + 1) / 10 ≤ fuel := by omega
      simp only [decDigitsAux, valDigits, ih _ hdiv]
      exact Nat.mod_add_div (m + 1) 10

/-- `Nat.digitChar` is injective on decimal digits. -/
theorem digitChar_inj {a b : Nat} (ha : a < 10) (hb : b < 10)
    (h : Nat.digitChar a = Nat.digitChar b) : a = b := by
  interval_cases a <;> interval_cases b <;> revert h <;> decide

/-- Mapping `Nat.digitChar` over decimal digit lists is injective. -/
theorem map_digitChar_inj :
    ∀ l₁ l₂ : List Nat, (∀ d ∈ l₁, d < 10) → (∀ d ∈ l₂, d < 10) →
      l₁.map Nat.digitChar = l₂.map Nat.digitChar → l₁ = l₂ := by
  intro l₁
  induction l₁ with
  | nil =>
    intro l₂ _ _ h
    cases l₂ <;> simp_all
  | cons a as ih =>
    intro l₂ h1 h2 h
    cases l₂ with
    | nil => simp at h
    | cons b bs =>
      simp only [List.map_cons, List.cons.injEq] at h
      have hab : a = b := digitChar_inj (h1 a (by simp)) (h2 b (by simp)) h.1
      subst hab
      rw [ih bs (fun d hd => h1 d (by simp [hd])) (fun d hd => h2 d (by simp [hd])) h.2]

/-- `decRepr` is injective on positive numbers. -/
theorem decRepr_inj_pos {m n : Nat} (hm : 1 ≤ m) (hn : 1 ≤ n)
    (h : decRepr m = decRepr n) : m = n := by
  unfold decRepr at h
  rw [if_neg (by omega), if_neg (by omega)] at h
  have hdata : (decDigitsAux m m).reverse.map Nat.digitChar =
      (decDigitsAux n n).reverse.map Nat.digitChar := congrArg String.data h
  have hrev := map_digitChar_inj _ _
    (fun d hd => decDigitsAux_lt10 m m d (List.mem_reverse.mp hd))
    (fun d hd => decDigitsAux_lt10 n n d (List.mem_reverse.mp hd)) hdata
  have heq : decDigitsAux m m = decDigitsAux n n := List.reverse_injective hrev
  have h1 := valDigits_decDigitsAux m m le_rfl
  have h2 := valDigits_decDigitsAux n n le_rfl
  rw [heq, h2] at h1
  exact h1.symm

/-- The decimal rendering never contains a colon. -/
theorem colon_not_mem_decRepr (n : Nat) : ':' ∉ (decRepr n).data := by
  unfold decRepr
  split
  · decide
  · intro hmem
    have hm : ':' ∈ (decDigitsAux n n).reverse.map Nat.digitChar := hmem
    simp only [List.mem_map, List.mem_reverse] at hm
    obtain ⟨d, hd, hds⟩ := hm
    have hlt := decDigitsAux_lt10 n n d hd
    interval_cases d <;> revert hds <;> decide

/-- Splitting a character list at a marker not occurring in the prefixes. -/
theorem append_colon_inj :
    ∀ x₁ x₂ y₁ y₂ : List Char, ':' ∉ x₁ → ':' ∉ x₂ →
      x₁ ++ ':' :: y₁ = x₂ ++ ':' :: y₂ → x₁ = x₂ ∧ y₁ = y₂ := by
  intro x₁
  induction x₁ with
  | nil =>
    intro x₂ y₁ y₂ _ h2 h
    cases x₂ with
    | nil => simp_all
    | cons b bs =>
      simp only [List.nil_append, List.cons_append, List.cons.injEq] at h
      simp [← h.1] at h2
  | cons a as ih =>
    intro x₂ y₁ y₂ h1 h2 h
    cases x₂ with
    | nil =>
      simp only [List.cons_append, List.nil_append, List.cons.injEq] at h
      simp [h.1] at h1
    | cons b bs =>
      simp only [List.cons_append, List.cons.injEq] at h
      obtain ⟨hab, hrest⟩ := h
      have hr := ih bs y₁ y₂ (fun hm => h1 (List.mem_cons_of_mem _ hm))
        (fun hm => h2 (List.mem_cons_of_mem _ hm)) hrest
      exact ⟨by rw [hab, hr.1], hr.2⟩

/-- Snapshot IDs built from colon-free names and positive sequence numbers
are injective. -/
theorem mkId_inj {a b : String} {m n : Nat} (ha : ':' ∉ a.data)
    (hb : ':' ∉ b.data) (hm : 1 ≤ m) (hn : 1 ≤ n)
    (h : mkId a m = mkId b n) : a = b ∧ m = n := by
  unfold mkId at h
  have hd : a.data ++ ':' :: (decRepr m).data =
      b.data ++ ':' :: (decRepr n).data := by
    have hc := congrArg String.data h
    simpa [String.data_append] using hc
  obtain ⟨h1, h2⟩ := append_colon_inj _ _ _ _ ha hb hd
  refine ⟨?_, decRepr_inj_pos hm hn ?_⟩
  · cases a; cases b; simp_all
  · cases hsm : decRepr m; cases hsn : decRepr n
    rw [hsm, hsn] at h2
    simp_all

/-- IDs with distinct positive sequence numbers are distinct. -/
theorem mkId_ne_of_seq_ne {a b : String} {m n : Nat} (ha : ':' ∉ a.data)
    (hb : ':' ∉ b.data) (hm : 1 ≤ m) (hn : 1 ≤ n) (hne : m ≠ n) :
    mkId a m ≠ mkId b n := fun h => hne (mkId_inj ha hb hm hn h).2

/-! ### Interaction of lookup and first-match update -/

@[simp] theorem Snapshot.id_node {S N R : Type} (ns : NodeSnapshot S N) :
    (Snapshot.node (R := R) ns).id = ns.id := rfl

@[simp] theorem Snapshot.id_endSnap {S N R : Type} (es : EndSnapshot S R) :
    (Snapshot.endSnap (N := N) es).id = es.id := rfl

@[simp] theorem NodeSnapshot.enterRun_id {S N : Type} (s : NodeSnapshot S N)
    (now : Nat) : (s.enterRun now).id = s.id := rfl

@[simp] theorem NodeSnapshot.exitRun_id {S N : Type} (s : NodeSnapshot S N)
    (elapsed : Nat) (b : Bool) : (s.exitRun elapsed b).id = s.id := rfl

/-- Updating the first match preserves what lookup finds there, when the
update preserves the ID. -/
theorem find_updateFirstNode {S N R : Type} (sid : String)
    (f : NodeSnapshot S N → NodeSnapshot S N) (hpres : ∀ ns, (f ns).id = ns.id) :
    ∀ (hist : List (Snapshot S N R)) (ns : NodeSnapshot S N),
      hist.find? (fun s => s.id == sid) = some (Snapshot.node ns) →
      (updateFirstNode sid f hist).find? (fun s => s.id == sid) =
        some (Snapshot.node (f ns)) := by
  intro hist
  induction hist with
  | nil => intro ns h; simp [List.find?] at h
  | cons s rest ih =>
    intro ns h
    by_cases hs : s.id = sid
    · have hbeq : (s.id == sid) = true := by simp [hs]
      rw [List.find?_cons] at h
      simp only [hbeq] at h
      injection h with h'
      subst h'
      simp only [Snapshot.id_node] at hbeq
      simp only [updateFirstNode, Snapshot.id_node, hbeq, if_true]
      rw [List.find?_cons]
      simp [hpres, hbeq]
    · have hbeq : (s.id == sid) = false := by simp [hs]
      rw [List.find?_cons] at h
      simp only [hbeq] at h
      simp only [updateFirstNode, hbeq, Bool.false_eq_true, if_false]
      rw [List.find?_cons]
      simp only [hbeq]
      exact ih ns h

/-- Entry of the full-history recording region when lookup finds a node
snapshot. -/
theorem full_record_enter_found {S N R : Type}
    (p : FullStatePersistence S N R) (sid : String) (now : Nat)
    (ns : NodeSnapshot S N)
    (h : p.find_snapshot sid = some (Snapshot.node ns)) :
    p.record_enter sid now =
      Except.ok { p with
        history := updateFirstNode sid (fun s => s.enterRun now) p.history } := by
  unfold FullStatePersistence.record_enter
  rw [h]

/-- Entry of the latest-only recording region when the current snapshot is
a node snapshot with the requested ID. -/
theorem simple_record_enter_found {S N R : Type}
    (p : SimpleStatePersistence S N R) (sid : String) (now : Nat)
    (ns : NodeSnapshot S N)
    (h : p.last_snapshot = some (Snapshot.node ns)) (hid : ns.id = sid) :
    p.record_enter sid now =
      Except.ok { p with
        last_snapshot := some (Snapshot.node (ns.enterRun now)) } := by
  unfold SimpleStatePersistence.record_enter
  rw [h]
  simp [hid]

/-- C1 (amended): for both persistence backends, entering `record_run` on a
node snapshot sets its status to running and records `start_ts = now` before
the node body runs; on normal exit of the region the snapshot gets the
elapsed duration and status success; on abnormal exit via an exception that
is a subclass of `Exception` it gets the elapsed duration and status error
and the exception is re-raised. The updates are not guaranteed on every exit
path: an exception deriving only from `BaseException` escapes the region
with no update (see the C1 counterexample and C8). -/
theorem c1_record_run_region_updates {S N R V : Type} (now elapsed : Nat)
    (outcome : Except Exn V) :
    (∀ (p : FullStatePersistence S N R) (sid : String) (ns : NodeSnapshot S N),
      p.find_snapshot sid = some (Snapshot.node ns) →
      (∃ p1, p.record_enter sid now = Except.ok p1 ∧
        p1.find_snapshot sid = some (Snapshot.node (ns.enterRun now)) ∧
        (ns.enterRun now).status = Status.running ∧
        (ns.enterRun now).start_ts = some now) ∧
      (∀ v, outcome = Except.ok v →
        ∃ p2, p.record_run sid now elapsed outcome = Except.ok (p2, Except.ok v) ∧
          ∃ ns2, p2.find_snapshot sid = some (Snapshot.node ns2) ∧
            ns2.status = Status.success ∧ ns2.duration = some elapsed ∧
            ns2.start_ts = some now ∧ ns2.state = ns.state ∧ ns2.node = ns.node) ∧
      (∀ e, outcome = Except.error e → e.isException = true →
        ∃ p2, p.record_run sid now elapsed outcome = Except.ok (p2, Except.error e) ∧
          ∃ ns2, p2.find_snapshot sid = some (Snapshot.node ns2) ∧
            ns2.status = Status.error ∧ ns2.duration = some elapsed ∧
            ns2.start_ts = some now ∧ ns2.state = ns.state ∧ ns2.node = ns.node)) ∧
    (∀ (p : SimpleStatePersistence S N R) (sid : String) (ns : NodeSnapshot S N),
      p.last_snapshot = some (Snapshot.node ns) → ns.id = sid →
      (∃ p1, p.record_enter sid now = Except.ok p1 ∧
        p1.last_snapshot = some (Snapshot.node (ns.enterRun now)) ∧
        (ns.enterRun now).status = Status.running ∧
        (ns.enterRun now).start_ts = some now) ∧
      (∀ v, outcome = Except.ok v →
        ∃ p2, p.record_run sid now elapsed outcome = Except.ok (p2, Except.ok v) ∧
          ∃ ns2, p2.last_snapshot = some (Snapshot.node ns2) ∧
            ns2.status = Status.success ∧ ns2.duration = some elapsed ∧
            ns2.start_ts = some now ∧ ns2.state = ns.state ∧ ns2.node = ns.node) ∧
      (∀ e, outcome = Except.error e → e.isException = true →
        ∃ p2, p.record_run sid now elapsed outcome = Except.ok (p2, Except.error e) ∧
          ∃ ns2, p2.last_snapshot = some (Snapshot.node ns2) ∧
            ns2.status = Status.error ∧ ns2.duration = some elapsed ∧
            ns2.start_ts = some now ∧ ns2.state = ns.state ∧ ns2.node = ns.node)) := by
  constructor
  · intro p sid ns h
    have henter := full_record_enter_found p sid now ns h
    have hfind1 :
        List.find? (fun s => s.id == sid)
          (updateFirstNode sid (fun s => s.enterRun now) p.history) =
          some (Snapshot.node (ns.enterRun now)) :=
      find_updateFirstNode sid (fun s => s.enterRun now) (fun _ => rfl) p.history ns h
    refine ⟨⟨{ p with history := updateFirstNode sid (fun s => s.enterRun now) p.history },
      henter, hfind1, rfl, rfl⟩, ?_, ?_⟩
    · intro v hv
      subst hv
      have hrun : p.record_run sid now elapsed (Except.ok v) =
          Except.ok
            (⟨p.deep_copy,
              updateFirstNode sid (fun s => s.exitRun elapsed true)
                (updateFirstNode sid (fun s => s.enterRun now) p.history),
              p.codec, p.counter⟩,
             Except.ok v) := by
        unfold FullStatePersistence.record_run
        rw [henter]
        rfl
      exact ⟨_, hrun, (ns.enterRun now).exitRun elapsed true,
        find_updateFirstNode sid (fun s => s.exitRun elapsed true) (fun _ => rfl) _ _ hfind1,
        rfl, rfl, rfl, rfl, rfl⟩
    · intro e he hexc
      subst he
      have hrun : p.record_run sid now elapsed (Except.error e : Except Exn V) =
          Except.ok
            (⟨p.deep_copy,
              updateFirstNode sid (fun s => s.exitRun elapsed false)
                (updateFirstNode sid (fun s => s.enterRun now) p.history),
              p.codec, p.counter⟩,
             Except.error e) := by
        unfold FullStatePersistence.record_run FullStatePersistence.record_exit
        rw [henter]
        simp [hexc]
        rfl
      exact ⟨_, hrun, (ns.enterRun now).exitRun elapsed false,
        find_updateFirstNode sid (fun s => s.exitRun elapsed false) (fun _ => rfl) _ _ hfind1,
        rfl, rfl, rfl, rfl, rfl⟩
  · intro p sid ns h hid
    have henter := simple_record_enter_found p sid now ns h hid
    refine ⟨⟨{ p with last_snapshot := some (Snapshot.node (ns.enterRun now)) },
      henter, rfl, rfl, rfl⟩, ?_, ?_⟩
    · intro v hv
      subst hv
      have hrun : p.record_run sid now elapsed (Except.ok v) =
          Except.ok
            (⟨p.deep_copy,
              some (Snapshot.node ((ns.enterRun now).exitRun elapsed true)),
              p.counter⟩,
             Except.ok v) := by
        unfold SimpleStatePersistence.record_run
        rw [henter]
        rfl
      exact ⟨_, hrun, (ns.enterRun now).exitRun elapsed true, rfl, rfl, rfl, rfl, rfl, rfl⟩
    · intro e he hexc
      subst he
      have hrun : p.record_run sid now elapsed (Except.error e : Except Exn V) =
          Except.ok
            (⟨p.deep_copy,
              some (Snapshot.node ((ns.enterRun now).exitRun elapsed false)),
              p.counter⟩,
             Except.error e) := by
        unfold SimpleStatePersistence.record_run SimpleStatePersistence.record_exit
        rw [henter]
        simp [hexc]
        rfl
      exact ⟨_, hrun, (ns.enterRun now).exitRun elapsed false, rfl, rfl, rfl, rfl, rfl, rfl⟩

/-- C1 counterexample: an exit path of the recording region on which the
code performs none of the claimed updates: a KeyboardInterrupt-like
exception (deriving only from `BaseException`, so not caught by the
region's `except Exception`) propagates out of
`SimpleStatePersistence.record_run` with the snapshot's duration left
unset and its status left running rather than set to error — so the
duration/status updates do not happen on every exit path. -/
theorem c1_counterexample :
    SimpleStatePersistence.record_run
        (⟨false, some (Snapshot.node ⟨9, 2, "Bar", none, none, Status.created, "Bar:1"⟩),
          2⟩ : SimpleStatePersistence Nat Nat Nat)
        "Bar:1" 4 6
        (Except.error ⟨false, "KeyboardInterrupt"⟩ : Except Exn Nat) =
      Except.ok
        (⟨false, some (Snapshot.node ⟨9, 2, "Bar", some 4, none, Status.running, "Bar:1"⟩),
          2⟩,
         Except.error ⟨false, "KeyboardInterrupt"⟩) ∧
    (Status.running ≠ Status.error) ∧ ((none : Option Nat) ≠ some 6) := by
  exact ⟨rfl, by decide, by decide⟩

/-- C1 witness: the success path evaluated on a concrete one-snapshot
store. -/
theorem c1_record_run_region_updates_witness :
    ∃ p2, FullStatePersistence.record_run
        (⟨true, [Snapshot.node ⟨0, 7, "Foo", none, none, Status.created, "Foo:1"⟩],
          none, 2⟩ : FullStatePersistence Nat Nat Nat)
        "Foo:1" 11 3 (Except.ok 5) = Except.ok (p2, Except.ok 5) ∧
      ∃ ns2, p2.find_snapshot "Foo:1" = some (Snapshot.node ns2) ∧
        ns2.status = Status.success ∧ ns2.duration = some 3 ∧
        ns2.start_ts = some 11 ∧ ns2.state = 0 ∧ ns2.node = 7 := by
  have h := (@c1_record_run_region_updates Nat Nat Nat Nat 11 3 (Except.ok 5)).1
    ⟨true, [Snapshot.node ⟨0, 7, "Foo", none, none, Status.created, "Foo:1"⟩], none, 2⟩
    "Foo:1" ⟨0, 7, "Foo", none, none, Status.created, "Foo:1"⟩ (by decide)
  exact h.2.1 5 rfl

/-- C2 counterexample: on `FullStatePersistence`, `record_run` on an end
snapshot fails the `assert isinstance(snapshot, NodeSnapshot)` statement,
raising `AssertionError`, not the `TypeError` the claim names; and on
`SimpleStatePersistence`, `record_run` with no stored snapshot raises
`AssertionError`, not the `LookupError` the claim requires of every
backend. -/
theorem c2_counterexample :
    FullStatePersistence.record_run
        (⟨true, [Snapshot.endSnap ⟨0, 4, 9, "end:1"⟩], none, 2⟩ :
          FullStatePersistence Nat Nat Nat)
        "end:1" 0 0 (Except.ok (0 : Nat)) =
      Except.error (PyError.assertionError "Only NodeSnapshot can be recorded") ∧
    raisedTypeError (FullStatePersistence.record_run
        (⟨true, [Snapshot.endSnap ⟨0, 4, 9, "end:1"⟩], none, 2⟩ :
          FullStatePersistence Nat Nat Nat)
        "end:1" 0 0 (Except.ok (0 : Nat))) = false ∧
    SimpleStatePersistence.record_run
        (⟨false, none, 1⟩ : SimpleStatePersistence Nat Nat Nat)
        "Foo:1" 0 0 (Except.ok (0 : Nat)) =
      Except.error (PyError.assertionError "No snapshot to record") ∧
    raisedLookupError (SimpleStatePersistence.record_run
        (⟨false, none, 1⟩ : SimpleStatePersistence Nat Nat Nat)
        "Foo:1" 0 0 (Except.ok (0 : Nat))) = false := by
  exact ⟨rfl, rfl, rfl, rfl⟩

/-- C2 (amended): `FullStatePersistence.record_run` raises `LookupError`
when no snapshot with the requested ID exists and `AssertionError` (from
the failed `isinstance` assert, not `TypeError`) when the located snapshot
is not a node snapshot; `SimpleStatePersistence.record_run` raises
`AssertionError` when nothing is stored, when the stored snapshot is not a
node snapshot, and when the requested ID differs from the stored
snapshot's ID. -/
theorem c2_record_run_failures {S N R V : Type} (now elapsed : Nat)
    (outcome : Except Exn V) :
    (∀ (p : FullStatePersistence S N R) sid, p.find_snapshot sid = none →
      p.record_run sid now elapsed outcome =
        Except.error (PyError.lookupError ("No snapshot found with id=" ++ sid))) ∧
    (∀ (p : FullStatePersistence S N R) sid es,
      p.find_snapshot sid = some (Snapshot.endSnap es) →
      p.record_run sid now elapsed outcome =
        Except.error (PyError.assertionError "Only NodeSnapshot can be recorded")) ∧
    (∀ (p : SimpleStatePersistence S N R) sid, p.last_snapshot = none →
      p.record_run sid now elapsed outcome =
        Except.error (PyError.assertionError "No snapshot to record")) ∧
    (∀ (p : SimpleStatePersistence S N R) sid es,
      p.last_snapshot = some (Snapshot.endSnap es) →
      p.record_run sid now elapsed outcome =
        Except.error (PyError.assertionError "Only NodeSnapshot can be recorded")) ∧
    (∀ (p : SimpleStatePersistence S N R) sid ns,
      p.last_snapshot = some (Snapshot.node ns) → ns.id ≠ sid →
      p.record_run sid now elapsed outcome =
        Except.error (PyError.assertionError "snapshot_id must match the last snapshot ID")) := by
  refine ⟨?_, ?_, ?_, ?_, ?_⟩
  · intro p sid h
    unfold FullStatePersistence.record_run FullStatePersistence.record_enter
    rw [h]
    rfl
  · intro p sid es h
    unfold FullStatePersistence.record_run FullStatePersistence.record_enter
    rw [h]
    rfl
  · intro p sid h
    unfold SimpleStatePersistence.record_run SimpleStatePersistence.record_enter
    rw [h]
    rfl
  · intro p sid es h
    unfold SimpleStatePersistence.record_run SimpleStatePersistence.record_enter
    rw [h]
    rfl
  · intro p sid ns h hne
    unfold SimpleStatePersistence.record_run SimpleStatePersistence.record_enter
    rw [h]
    simp [hne]
    rfl

/-- C2 witness: the lookup failure evaluated on a concrete store with a
missing ID. -/
theorem c2_record_run_failures_witness :
    FullStatePersistence.record_run
        (⟨true, [Snapshot.node ⟨0, 7, "Foo", none, none, Status.created, "Foo:1"⟩],
          none, 2⟩ : FullStatePersistence Nat Nat Nat)
        "Bar:9" 0 0 (Except.ok (0 : Nat)) =
      Except.error (PyError.lookupError "No snapshot found with id=Bar:9") :=
  (@c2_record_run_failures Nat Nat Nat Nat 0 0 (Except.ok 0)).1
    ⟨true, [Snapshot.node ⟨0, 7, "Foo", none, none, Status.created, "Foo:1"⟩], none, 2⟩
    "Bar:9" (by decide)

/-- C8 counterexample: a `CancelledError`-like exception (not a subclass of
`Exception`) propagating out of the body leaves the snapshot with status
running and no duration — the `except Exception` clause of `record_run`
does not catch it, so the status does not become error and no duration is
recorded, contrary to the claim. -/
theorem c8_counterexample :
    FullStatePersistence.record_run
        (⟨true, [Snapshot.node ⟨0, 7, "Foo", none, none, Status.created, "Foo:1"⟩],
          none, 2⟩ : FullStatePersistence Nat Nat Nat)
        "Foo:1" 11 3
        (Except.error ⟨false, "CancelledError"⟩ : Except Exn Nat) =
      Except.ok
        (⟨true, [Snapshot.node ⟨0, 7, "Foo", some 11, none, Status.running, "Foo:1"⟩],
          none, 2⟩,
         Except.error ⟨false, "CancelledError"⟩) ∧
    (Status.running ≠ Status.error) := by
  exact ⟨rfl, by decide⟩

/-- C8 (amended): cancellation of the awaiting task during the node body
(an exception class not derived from `Exception`, such as
`asyncio.CancelledError`) propagates out of the recording region unchanged,
but the region does not record a duration and does not set the status to
error: on both backends the snapshot is left as the region entry wrote it,
with status running, `start_ts = now`, and its duration untouched. -/
theorem c8_cancellation_passthrough {S N R V : Type} (now elapsed : Nat)
    (e : Exn) (he : e.isException = false) :
    (∀ (p : FullStatePersistence S N R) sid ns,
      p.find_snapshot sid = some (Snapshot.node ns) →
      ∃ p2, p.record_run sid now elapsed (Except.error e : Except Exn V) =
          Except.ok (p2, Except.error e) ∧
        p2.find_snapshot sid = some (Snapshot.node (ns.enterRun now)) ∧
        (ns.enterRun now).status = Status.running ∧
        (ns.enterRun now).start_ts = some now ∧
        (ns.enterRun now).duration = ns.duration) ∧
    (∀ (p : SimpleStatePersistence S N R) sid ns,
      p.last_snapshot = some (Snapshot.node ns) → ns.id = sid →
      ∃ p2, p.record_run sid now elapsed (Except.error e : Except Exn V) =
          Except.ok (p2, Except.error e) ∧
        p2.last_snapshot = some (Snapshot.node (ns.enterRun now)) ∧
        (ns.enterRun now).status = Status.running ∧
        (ns.enterRun now).start_ts = some now ∧
        (ns.enterRun now).duration = ns.duration) := by
  constructor
  · intro p sid ns h
    have henter := full_record_enter_found p sid now ns h
    have hfind1 :
        List.find? (fun s => s.id == sid)
          (updateFirstNode sid (fun s => s.enterRun now) p.history) =
          some (Snapshot.node (ns.enterRun now)) :=
      find_updateFirstNode sid (fun s => s.enterRun now) (fun _ => rfl) p.history ns h
    refine ⟨{ p with history := updateFirstNode sid (fun s => s.enterRun now) p.history },
      ?_, hfind1, rfl, rfl, rfl⟩
    unfold FullStatePersistence.record_run FullStatePersistence.record_exit
    rw [henter]
    simp [he]
    rfl
  · intro p sid ns h hid
    have henter := simple_record_enter_found p sid now ns h hid
    refine ⟨{ p with last_snapshot := some (Snapshot.node (ns.enterRun now)) },
      ?_, rfl, rfl, rfl, rfl⟩
    unfold SimpleStatePersistence.record_run SimpleStatePersistence.record_exit
    rw [henter]
    simp [he]
    rfl

/-- C8 witness: the amended cancellation behaviour evaluated on a concrete
one-snapshot store. -/
theorem c8_cancellation_passthrough_witness :
    ∃ p2, SimpleStatePersistence.record_run
        (⟨false, some (Snapshot.node ⟨0, 7, "Foo", none, none, Status.created, "Foo:1"⟩),
          2⟩ : SimpleStatePersistence Nat Nat Nat)
        "Foo:1" 11 3 (Except.error ⟨false, "CancelledError"⟩ : Except Exn Nat) =
        Except.ok (p2, Except.error ⟨false, "CancelledError"⟩) ∧
      p2.last_snapshot =
        some (Snapshot.node ⟨0, 7, "Foo", some 11, none, Status.running, "Foo:1"⟩) ∧
      Status.running = Status.running ∧ (some 11 : Option Nat) = some 11 ∧
      (none : Option Nat) = none := by
  have h := (@c8_cancellation_passthrough Nat Nat Nat Nat 11 3
      ⟨false, "CancelledError"⟩ rfl).2
    ⟨false, some (Snapshot.node ⟨0, 7, "Foo", none, none, Status.created, "Foo:1"⟩), 2⟩
    "Foo:1" ⟨0, 7, "Foo", none, none, Status.created, "Foo:1"⟩ rfl rfl
  exact h

/-- C5: the latest-only backend keeps at most one snapshot: `snapshot_node`
and `snapshot_end` overwrite `last_snapshot` with the newly built snapshot,
`restore` returns exactly `last_snapshot` (none on a fresh store), and
`record_run` fails its assertion when the requested ID differs from the
current snapshot's ID. -/
theorem c5_simple_latest_only {W S N R V : Type} (ops : CopyOps W S N R)
    (now elapsed : Nat) (outcome : Except Exn V) :
    (∀ (p : SimpleStatePersistence S N R) w state next_node nid,
      ∃ ns : NodeSnapshot S N,
        (SimpleStatePersistence.snapshot_node ops p w state next_node nid).1.last_snapshot =
          some (Snapshot.node ns) ∧
        ns.nodeName = nid ∧ ns.id = mkId nid p.counter ∧ ns.status = Status.created ∧
        (SimpleStatePersistence.snapshot_node ops p w state next_node nid).1.counter =
          p.counter + 1) ∧
    (∀ (p : SimpleStatePersistence S N R) w state result,
      ∃ es : EndSnapshot S R,
        (SimpleStatePersistence.snapshot_end ops p w state result now).1.last_snapshot =
          some (Snapshot.endSnap es) ∧
        es.id = mkId "end" p.counter ∧ es.ts = now ∧
        (SimpleStatePersistence.snapshot_end ops p w state result now).1.counter =
          p.counter + 1) ∧
    (∀ p : SimpleStatePersistence S N R, p.restore = p.last_snapshot) ∧
    (SimpleStatePersistence.restore ({} : SimpleStatePersistence S N R) = none) ∧
    (∀ (p : SimpleStatePersistence S N R) sid ns,
      p.last_snapshot = some (Snapshot.node ns) → ns.id ≠ sid →
      p.record_run sid now elapsed outcome =
        Except.error (PyError.assertionError "snapshot_id must match the last snapshot ID")) := by
  refine ⟨?_, ?_, fun p => rfl, rfl, ?_⟩
  · intro p w state next_node nid
    exact ⟨_, rfl, rfl, rfl, rfl, rfl⟩
  · intro p w state result
    exact ⟨_, rfl, rfl, rfl, rfl⟩
  · intro p sid ns h hne
    unfold SimpleStatePersistence.record_run SimpleStatePersistence.record_enter
    rw [h]
    simp [hne]
    rfl

/-- C5 witness: overwriting an end snapshot with a fresh node snapshot, and
the ID-mismatch assertion, both on concrete latest-only stores. -/
theorem c5_simple_latest_only_witness :
    (∃ ns : NodeSnapshot Nat Nat,
      (SimpleStatePersistence.snapshot_node (idOps Nat Nat Nat)
        (⟨false, some (Snapshot.endSnap ⟨0, 9, 5, "end:1"⟩), 2⟩ :
          SimpleStatePersistence Nat Nat Nat) () 3 7 "Foo").1.last_snapshot =
        some (Snapshot.node ns) ∧
      ns.nodeName = "Foo" ∧ ns.id = mkId "Foo" 2 ∧ ns.status = Status.created ∧
      (SimpleStatePersistence.snapshot_node (idOps Nat Nat Nat)
        (⟨false, some (Snapshot.endSnap ⟨0, 9, 5, "end:1"⟩), 2⟩ :
          SimpleStatePersistence Nat Nat Nat) () 3 7 "Foo").1.counter = 2 + 1) ∧
    SimpleStatePersistence.record_run
        (⟨false, some (Snapshot.node ⟨0, 7, "Foo", none, none, Status.created, "Foo:1"⟩),
          2⟩ : SimpleStatePersistence Nat Nat Nat)
        "Bar:2" 0 0 (Except.ok (0 : Nat)) =
      Except.error (PyError.assertionError "snapshot_id must match the last snapshot ID") :=
  ⟨(@c5_simple_latest_only Unit Nat Nat Nat Nat (idOps Nat Nat Nat) 0 0 (Except.ok 0)).1
      ⟨false, some (Snapshot.endSnap ⟨0, 9, 5, "end:1"⟩), 2⟩ () 3 7 "Foo",
    (@c5_simple_latest_only Unit Nat Nat Nat Nat (idOps Nat Nat Nat) 0 0 (Except.ok 0)).2.2.2.2
      ⟨false, some (Snapshot.node ⟨0, 7, "Foo", none, none, Status.created, "Foo:1"⟩), 2⟩
      "Bar:2" ⟨0, 7, "Foo", none, none, Status.created, "Foo:1"⟩ rfl (by decide)⟩

/-- C10: `set_types` builds the codec only when none exists yet: once a
codec has been built, every later call is a no-op that does not invoke the
supplied callback and keeps the existing codec, even when the new call
would supply a different type pair. -/
theorem c10_set_types_first_call_only {S N R : Type} :
    (∀ (p : FullStatePersistence S N R) (g : Unit → String × String) c,
      p.codec = some c → p.set_types g = (p, false)) ∧
    (∀ (p : FullStatePersistence S N R) (g1 g2 : Unit → String × String),
      p.codec = none →
        (p.set_types g1).2 = true ∧
        (p.set_types g1).1.codec = some (g1 ()) ∧
        (p.set_types g1).1.set_types g2 = ((p.set_types g1).1, false)) := by
  constructor
  · intro p g c h
    unfold FullStatePersistence.set_types
    rw [h]
  · intro p g1 g2 h
    have hp : p.set_types g1 = ({ p with codec := some (g1 ()) }, true) := by
      unfold FullStatePersistence.set_types
      rw [h]
    rw [hp]
    exact ⟨rfl, rfl, rfl⟩

/-- C10 witness: a second `set_types` call with a different type pair on a
concrete store keeps the first codec and reports the callback not
invoked. -/
theorem c10_set_types_first_call_only_witness :
    FullStatePersistence.set_types
        (⟨true, [], some ("MyState", "int"), 1⟩ : FullStatePersistence Nat Nat Nat)
        (fun _ => ("Other", "str")) =
      (⟨true, [], some ("MyState", "int"), 1⟩, false) :=
  (@c10_set_types_first_call_only Nat Nat Nat).1 ⟨true, [], some ("MyState", "int"), 1⟩
    (fun _ => ("Other", "str")) ("MyState", "int") rfl

/-! ### Heap lemmas -/

@[simp] theorem Heap.alloc_next {V : Type} (h : Heap V) (v : V) :
    (h.alloc v).1.next = h.next + 1 := rfl

@[simp] theorem Heap.alloc_addr {V : Type} (h : Heap V) (v : V) :
    (h.alloc v).2 = h.next := rfl

theorem Heap.read_alloc_self {V : Type} (h : Heap V) (v : V) :
    (h.alloc v).1.read h.next = v := by simp [read, alloc]

theorem Heap.read_alloc_other {V : Type} (h : Heap V) (v : V) (b : Nat)
    (hb : b ≠ h.next) : (h.alloc v).1.read b = h.read b := by
  simp [read, alloc, hb]

theorem Heap.read_write_other {V : Type} (h : Heap V) (a : Nat) (v : V)
    (b : Nat) (hb : b ≠ a) : (h.write a v).read b = h.read b := by
  simp [read, write, hb]

/-- Copying a value into a fresh cell (and a second value into the next
cell) captures the values read at copy time and is isolated from later
writes through the original references. -/
theorem double_alloc_spec {V : Type} (h : Heap V) (a x : Nat)
    (ha : a < h.next) (hx : x < h.next) :
    ((h.alloc (h.read a)).1.alloc ((h.alloc (h.read a)).1.read x)).1.read h.next =
      h.read a ∧
    ((h.alloc (h.read a)).1.alloc ((h.alloc (h.read a)).1.read x)).1.read (h.next + 1) =
      h.read x ∧
    (∀ (v : V) (b : Nat), b = a ∨ b = x →
      ((((h.alloc (h.read a)).1.alloc ((h.alloc (h.read a)).1.read x)).1.write b v).read h.next =
        ((h.alloc (h.read a)).1.alloc ((h.alloc (h.read a)).1.read x)).1.read h.next) ∧
      ((((h.alloc (h.read a)).1.alloc ((h.alloc (h.read a)).1.read x)).1.write b v).read (h.next + 1) =
        ((h.alloc (h.read a)).1.alloc ((h.alloc (h.read a)).1.read x)).1.read (h.next + 1))) := by
  refine ⟨?_, ?_, ?_⟩
  · rw [Heap.read_alloc_other _ _ _ (by simp only [Heap.alloc_next]; omega)]
    exact Heap.read_alloc_self h (h.read a)
  · rw [Heap.read_alloc_other h (h.read a) x (by omega)]
    exact Heap.read_alloc_self (h.alloc (h.read a)).1 (h.read x)
  · intro v b hb
    constructor
    · exact Heap.read_write_other _ _ _ _ (by omega)
    · exact Heap.read_write_other _ _ _ _ (by omega)

/-- C4: `SimpleStatePersistence` defaults `deep_copy` to false and
`FullStatePersistence` defaults it to true; with `deep_copy` enabled,
`snapshot_node` and `snapshot_end` (on either backend) capture deep copies
of the state and of the node payload (or end value) at capture time: the
captured references are distinct from the originals, hold the values read
at capture time, and mutating the original state or payload afterwards
does not alter what any recorded snapshot refers to. -/
theorem c4_deep_copy_policy {S N R V : Type} :
    (({} : SimpleStatePersistence S N R).deep_copy = false) ∧
    (({} : FullStatePersistence S N R).deep_copy = true) ∧
    (∀ (p : FullStatePersistence (Option Nat) Nat Nat) (h : Heap V) (a na : Nat)
        (nid : String), p.deep_copy = true → a < h.next → na < h.next →
      ∃ a2 n2,
        (FullStatePersistence.snapshot_node (heapOps V) p h (some a) na nid).1.history =
          p.history ++
            [Snapshot.node ⟨some a2, n2, nid, none, none, Status.created, mkId nid p.counter⟩] ∧
        a2 ≠ a ∧ n2 ≠ a ∧ a2 ≠ na ∧ n2 ≠ na ∧
        (FullStatePersistence.snapshot_node (heapOps V) p h (some a) na nid).2.read a2 =
          h.read a ∧
        (FullStatePersistence.snapshot_node (heapOps V) p h (some a) na nid).2.read n2 =
          h.read na ∧
        (∀ (v : V) (b : Nat), b = a ∨ b = na →
          (((FullStatePersistence.snapshot_node (heapOps V) p h (some a) na nid).2.write b v).read a2 =
            (FullStatePersistence.snapshot_node (heapOps V) p h (some a) na nid).2.read a2) ∧
          (((FullStatePersistence.snapshot_node (heapOps V) p h (some a) na nid).2.write b v).read n2 =
            (FullStatePersistence.snapshot_node (heapOps V) p h (some a) na nid).2.read n2))) ∧
    (∀ (p : FullStatePersistence (Option Nat) Nat Nat) (h : Heap V) (a ra now : Nat),
        p.deep_copy = true → a < h.next → ra < h.next →
      ∃ a2 r2,
        (FullStatePersistence.snapshot_end (heapOps V) p h (some a) ra now).1.history =
          p.history ++ [Snapshot.endSnap ⟨some a2, r2, now, mkId "end" p.counter⟩] ∧
        a2 ≠ a ∧ r2 ≠ a ∧ a2 ≠ ra ∧ r2 ≠ ra ∧
        (FullStatePersistence.snapshot_end (heapOps V) p h (some a) ra now).2.read a2 =
          h.read a ∧
        (FullStatePersistence.snapshot_end (heapOps V) p h (some a) ra now).2.read r2 =
          h.read ra ∧
        (∀ (v : V) (b : Nat), b = a ∨ b = ra →
          (((FullStatePersistence.snapshot_end (heapOps V) p h (some a) ra now).2.write b v).read a2 =
            (FullStatePersistence.snapshot_end (heapOps V) p h (some a) ra now).2.read a2) ∧
          (((FullStatePersistence.snapshot_end (heapOps V) p h (some a) ra now).2.write b v).read r2 =
            (FullStatePersistence.snapshot_end (heapOps V) p h (some a) ra now).2.read r2))) ∧
    (∀ (p : SimpleStatePersistence (Option Nat) Nat Nat) (h : Heap V) (a na : Nat)
        (nid : String), p.deep_copy = true → a < h.next → na < h.next →
      ∃ a2 n2,
        (SimpleStatePersistence.snapshot_node (heapOps V) p h (some a) na nid).1.last_snapshot =
          some (Snapshot.node ⟨some a2, n2, nid, none, none, Status.created, mkId nid p.counter⟩) ∧
        a2 ≠ a ∧ n2 ≠ a ∧ a2 ≠ na ∧ n2 ≠ na ∧
        (SimpleStatePersistence.snapshot_node (heapOps V) p h (some a) na nid).2.read a2 =
          h.read a ∧
        (SimpleStatePersistence.snapshot_node (heapOps V) p h (some a) na nid).2.read n2 =
          h.read na) ∧
    (∀ (p : SimpleStatePersistence (Option Nat) Nat Nat) (h : Heap V) (a ra now : Nat),
        p.deep_copy = true → a < h.next → ra < h.next →
      ∃ a2 r2,
        (SimpleStatePersistence.snapshot_end (heapOps V) p h (some a) ra now).1.last_snapshot =
          some (Snapshot.endSnap ⟨some a2, r2, now, mkId "end" p.counter⟩) ∧
        a2 ≠ a ∧ r2 ≠ a ∧ a2 ≠ ra ∧ r2 ≠ ra ∧
        (SimpleStatePersistence.snapshot_end (heapOps V) p h (some a) ra now).2.read a2 =
          h.read a ∧
        (SimpleStatePersistence.snapshot_end (heapOps V) p h (some a) ra now).2.read r2 =
          h.read ra) := by
  refine ⟨rfl, rfl, ?_, ?_, ?_, ?_⟩
  · intro p h a na nid hdc ha hna
    have hsnap : FullStatePersistence.snapshot_node (heapOps V) p h (some a) na nid =
        (⟨p.deep_copy,
          p.history ++
            [Snapshot.node ⟨some h.next, h.next + 1, nid, none, none, Status.created,
              mkId nid p.counter⟩],
          p.codec, p.counter + 1⟩,
         ((h.alloc (h.read a)).1.alloc ((h.alloc (h.read a)).1.read na)).1) := by
      unfold FullStatePersistence.snapshot_node prep_state heapOps
      rw [hdc]
      rfl
    have hd := double_alloc_spec h a na ha hna
    refine ⟨h.next, h.next + 1, ?_, by omega, by omega, by omega, by omega, ?_, ?_, ?_⟩
    · rw [hsnap]
    · rw [hsnap]; exact hd.1
    · rw [hsnap]; exact hd.2.1
    · intro v b hb
      rw [hsnap]
      exact hd.2.2 v b hb
  · intro p h a ra now hdc ha hra
    have hsnap : FullStatePersistence.snapshot_end (heapOps V) p h (some a) ra now =
        (⟨p.deep_copy,
          p.history ++ [Snapshot.endSnap ⟨some h.next, h.next + 1, now, mkId "end" p.counter⟩],
          p.codec, p.counter + 1⟩,
         ((h.alloc (h.read a)).1.alloc ((h.alloc (h.read a)).1.read ra)).1) := by
      unfold FullStatePersistence.snapshot_end prep_state heapOps
      rw [hdc]
      rfl
    have hd := double_alloc_spec h a ra ha hra
    refine ⟨h.next, h.next + 1, ?_, by omega, by omega, by omega, by omega, ?_, ?_, ?_⟩
    · rw [hsnap]
    · rw [hsnap]; exact hd.1
    · rw [hsnap]; exact hd.2.1
    · intro v b hb
      rw [hsnap]
      exact hd.2.2 v b hb
  · intro p h a na nid hdc ha hna
    have hsnap : SimpleStatePersistence.snapshot_node (heapOps V) p h (some a) na nid =
        (⟨p.deep_copy,
          some (Snapshot.node ⟨some h.next, h.next + 1, nid, none, none, Status.created,
            mkId nid p.counter⟩),
          p.counter + 1⟩,
         ((h.alloc (h.read a)).1.alloc ((h.alloc (h.read a)).1.read na)).1) := by
      unfold SimpleStatePersistence.snapshot_node prep_state heapOps
      rw [hdc]
      rfl
    have hd := double_alloc_spec h a na ha hna
    refine ⟨h.next, h.next + 1, ?_, by omega, by omega, by omega, by omega, ?_, ?_⟩
    · rw [hsnap]
    · rw [hsnap]; exact hd.1
    · rw [hsnap]; exact hd.2.1
  · intro p h a ra now hdc ha hra
    have hsnap : SimpleStatePersistence.snapshot_end (heapOps V) p h (some a) ra now =
        (⟨p.deep_copy,
          some (Snapshot.endSnap ⟨some h.next, h.next + 1, now, mkId "end" p.counter⟩),
          p.counter + 1⟩,
         ((h.alloc (h.read a)).1.alloc ((h.alloc (h.read a)).1.read ra)).1) := by
      unfold SimpleStatePersistence.snapshot_end prep_state heapOps
      rw [hdc]
      rfl
    have hd := double_alloc_spec h a ra ha hra
    refine ⟨h.next, h.next + 1, ?_, by omega, by omega, by omega, by omega, ?_, ?_⟩
    · rw [hsnap]
    · rw [hsnap]; exact hd.1
    · rw [hsnap]; exact hd.2.1

/-- C4 witness: deep copies on a concrete two-cell heap are unaffected by
writes through the original references. -/
theorem c4_deep_copy_policy_witness :
    ∃ a2 n2,
      (FullStatePersistence.snapshot_node (heapOps Nat)
        (⟨true, [], none, 1⟩ : FullStatePersistence (Option Nat) Nat Nat)
        ⟨fun i => i + 100, 2⟩ (some 0) 1 "Foo").1.history =
        [Snapshot.node ⟨some a2, n2, "Foo", none, none, Status.created, mkId "Foo" 1⟩] ∧
      a2 ≠ 0 ∧ n2 ≠ 0 ∧ a2 ≠ 1 ∧ n2 ≠ 1 ∧
      (FullStatePersistence.snapshot_node (heapOps Nat)
        (⟨true, [], none, 1⟩ : FullStatePersistence (Option Nat) Nat Nat)
        ⟨fun i => i + 100, 2⟩ (some 0) 1 "Foo").2.read a2 = 100 ∧
      (FullStatePersistence.snapshot_node (heapOps Nat)
        (⟨true, [], none, 1⟩ : FullStatePersistence (Option Nat) Nat Nat)
        ⟨fun i => i + 100, 2⟩ (some 0) 1 "Foo").2.read n2 = 101 ∧
      (∀ (v b : Nat), b = 0 ∨ b = 1 →
        (((FullStatePersistence.snapshot_node (heapOps Nat)
          (⟨true, [], none, 1⟩ : FullStatePersistence (Option Nat) Nat Nat)
          ⟨fun i => i + 100, 2⟩ (some 0) 1 "Foo").2.write b v).read a2 =
          (FullStatePersistence.snapshot_node (heapOps Nat)
            (⟨true, [], none, 1⟩ : FullStatePersistence (Option Nat) Nat Nat)
            ⟨fun i => i + 100, 2⟩ (some 0) 1 "Foo").2.read a2) ∧
        (((FullStatePersistence.snapshot_node (heapOps Nat)
          (⟨true, [], none, 1⟩ : FullStatePersistence (Option Nat) Nat Nat)
          ⟨fun i => i + 100, 2⟩ (some 0) 1 "Foo").2.write b v).read n2 =
          (FullStatePersistence.snapshot_node (heapOps Nat)
            (⟨true, [], none, 1⟩ : FullStatePersistence (Option Nat) Nat Nat)
            ⟨fun i => i + 100, 2⟩ (some 0) 1 "Foo").2.read n2)) :=
  (@c4_deep_copy_policy (Option Nat) Nat Nat Nat).2.2.1
    ⟨true, [], none, 1⟩ ⟨fun i => i + 100, 2⟩ 0 1 "Foo" rfl (by decide) (by decide)

/-- Deserializing the serialization of a history restores it unchanged and
leaves the allocator counter untouched (every dumped document carries its
ID). -/
theorem assignIds_map_snapToDoc {S N R : Type} :
    ∀ (l : List (Snapshot S N R)) (counter : Nat),
      assignIds counter (l.map snapToDoc) = (l, counter) := by
  intro l
  induction l with
  | nil => intro counter; rfl
  | cons s rest ih =>
    intro counter
    cases s with
    | node ns => simp [assignIds, snapToDoc, docToSnap, ih]
    | endSnap es => simp [assignIds, snapToDoc, docToSnap, ih]

/-- C3: once the codec has been set, JSON round-tripping a full-history
store is the identity: `dump_json` succeeds, `load_json` of its output
succeeds, and the resulting store (history included) equals the original —
all dumped snapshots carry their IDs, so none is reassigned. -/
theorem c3_json_round_trip {S N R : Type} (p : FullStatePersistence S N R)
    (c : String × String) (hc : p.codec = some c) :
    ∃ docs, p.dump_json = Except.ok docs ∧ p.load_json docs = Except.ok p := by
  refine ⟨p.history.map snapToDoc, ?_, ?_⟩
  · unfold FullStatePersistence.dump_json
    rw [hc]
  · unfold FullStatePersistence.load_json
    rw [hc]
    simp only [assignIds_map_snapToDoc]
    rw [← hc]

/-- C3 witness: round-tripping a concrete two-snapshot history. -/
theorem c3_json_round_trip_witness :
    ∃ docs, FullStatePersistence.dump_json
        (⟨true,
          [Snapshot.node ⟨1, 7, "Foo", some 4, some 2, Status.success, "Foo:1"⟩,
           Snapshot.endSnap ⟨2, 4, 6, "end:2"⟩],
          some ("MyState", "int"), 3⟩ : FullStatePersistence Nat Nat Nat) =
        Except.ok docs ∧
      FullStatePersistence.load_json
        (⟨true,
          [Snapshot.node ⟨1, 7, "Foo", some 4, some 2, Status.success, "Foo:1"⟩,
           Snapshot.endSnap ⟨2, 4, 6, "end:2"⟩],
          some ("MyState", "int"), 3⟩ : FullStatePersistence Nat Nat Nat) docs =
        Except.ok
          (⟨true,
            [Snapshot.node ⟨1, 7, "Foo", some 4, some 2, Status.success, "Foo:1"⟩,
             Snapshot.endSnap ⟨2, 4, 6, "end:2"⟩],
            some ("MyState", "int"), 3⟩ : FullStatePersistence Nat Nat Nat) :=
  c3_json_round_trip
    ⟨true,
      [Snapshot.node ⟨1, 7, "Foo", some 4, some 2, Status.success, "Foo:1"⟩,
       Snapshot.endSnap ⟨2, 4, 6, "end:2"⟩],
      some ("MyState", "int"), 3⟩ ("MyState", "int") rfl

/-- Appending a node snapshot appends exactly one ID, built from the node
ID and the current counter. -/
theorem idsOf_snapshot_node {S N R : Type} (p : FullStatePersistence S N R)
    (st : S) (nd : N) (nid : String) :
    idsOf (FullStatePersistence.snapshot_node (idOps S N R) p () st nd nid).1 =
      idsOf p ++ [mkId nid p.counter] := by
  simp [idsOf, FullStatePersistence.snapshot_node]

/-- Appending an end snapshot appends exactly one ID, built from `"end"`
and the current counter. -/
theorem idsOf_snapshot_end {S N R : Type} (p : FullStatePersistence S N R)
    (st : S) (r : R) (now : Nat) :
    idsOf (FullStatePersistence.snapshot_end (idOps S N R) p () st r now).1 =
      idsOf p ++ [mkId "end" p.counter] := by
  simp [idsOf, FullStatePersistence.snapshot_end]

/-- IDs and counter after a list of insertions. -/
theorem applyOps_spec {S N R : Type} :
    ∀ (ops : List (InsertOp S N R)) (p : FullStatePersistence S N R),
      idsOf (applyOps p ops) = idsOf p ++ seqIds p.counter (ops.map InsertOp.name) ∧
      (applyOps p ops).counter = p.counter + ops.length := by
  intro ops
  induction ops with
  | nil => intro p; simp [applyOps, seqIds]
  | cons op rest ih =>
    intro p
    cases op with
    | node st nd nid =>
      have h := ih (FullStatePersistence.snapshot_node (idOps S N R) p () st nd nid).1
      have hc1 : (FullStatePersistence.snapshot_node (idOps S N R) p () st nd nid).1.counter =
          p.counter + 1 := rfl
      rw [hc1] at h
      constructor
      · simp only [applyOps]
        rw [h.1, idsOf_snapshot_node]
        simp [seqIds, InsertOp.name]
      · simp only [applyOps]
        rw [h.2]
        simp [List.length_cons]
        omega
    | endSnap st r now =>
      have h := ih (FullStatePersistence.snapshot_end (idOps S N R) p () st r now).1
      have hc1 : (FullStatePersistence.snapshot_end (idOps S N R) p () st r now).1.counter =
          p.counter + 1 := rfl
      rw [hc1] at h
      constructor
      · simp only [applyOps]
        rw [h.1, idsOf_snapshot_end]
        simp [seqIds, InsertOp.name]
      · simp only [applyOps]
        rw [h.2]
        simp [List.length_cons]
        omega

/-- Every ID produced by the allocator for names `names` starting at `c`
decomposes as `mkId nm k` with `nm` a listed name and `k ≥ c`. -/
theorem mem_seqIds : ∀ (c : Nat) (names : List String) (i : String),
    i ∈ seqIds c names → ∃ nm k, nm ∈ names ∧ c ≤ k ∧ i = mkId nm k := by
  intro c names
  induction names generalizing c with
  | nil => intro i hi; simp [seqIds] at hi
  | cons nm rest ih =>
    intro i hi
    simp only [seqIds, List.mem_cons] at hi
    rcases hi with h | h
    · exact ⟨nm, c, by simp, le_rfl, h⟩
    · obtain ⟨nm2, k, hmem, hk, heq⟩ := ih (c + 1) i h
      exact ⟨nm2, k, by simp [hmem], by omega, heq⟩

/-- Allocator-assigned IDs are pairwise distinct when the names are
colon-free and the counter is positive. -/
theorem seqIds_nodup : ∀ (c : Nat) (names : List String), 1 ≤ c →
    (∀ nm ∈ names, ':' ∉ nm.data) → (seqIds c names).Nodup := by
  intro c names
  induction names generalizing c with
  | nil => intro _ _; simp [seqIds]
  | cons nm rest ih =>
    intro hc hnames
    simp only [seqIds, List.nodup_cons]
    constructor
    · intro hmem
      obtain ⟨nm2, k, hmem2, hk, heq⟩ := mem_seqIds (c + 1) rest (mkId nm c) hmem
      exact mkId_ne_of_seq_ne (hnames nm (by simp)) (hnames nm2 (by simp [hmem2]))
        hc (by omega) (by omega) heq
    · exact ih (c + 1) (by omega) (fun x hx => hnames x (by simp [hx]))

/-- Loading documents that all lack IDs assigns consecutive allocator IDs
starting at the current counter. -/
theorem assignIds_all_missing {S N R : Type} :
    ∀ (docs : List (SnapDoc S N R)) (counter : Nat),
      (∀ d ∈ docs, docId d = none) →
      (assignIds counter docs).1.map Snapshot.id = seqIds counter (docs.map docName) ∧
      (assignIds counter docs).2 = counter + docs.length := by
  intro docs
  induction docs with
  | nil => intro counter _; simp [assignIds, seqIds]
  | cons d rest ih =>
    intro counter hall
    have hd := hall d (by simp)
    have h := ih (counter + 1) (fun x hx => hall x (by simp [hx]))
    cases d with
    | node nd =>
      simp only [docId] at hd
      simp only [assignIds, docToSnap, hd, List.map_cons, Snapshot.id_node, seqIds, docName]
      constructor
      · simp [h.1]
      · simp [h.2]
        omega
    | endSnap ed =>
      simp only [docId] at hd
      simp only [assignIds, docToSnap, hd, List.map_cons, Snapshot.id_endSnap, seqIds, docName]
      constructor
      · simp [h.1]
      · simp [h.2]
        omega

/-- C6: within one persistence instance, snapshot IDs are assigned at
insertion time as `node_id:seq` for node snapshots and `end:seq` for end
snapshots, with a per-persistence counter starting at 1 and bumped on every
insertion; IDs built this way are pairwise distinct (for colon-free node
IDs) and their sequence numbers follow insertion order; `load_json` assigns
IDs to documents lacking them continuing right after the allocator's
previously used range. -/
theorem c6_snapshot_id_allocation {S N R : Type} :
    (∀ ops : List (InsertOp S N R),
      idsOf (applyOps ({} : FullStatePersistence S N R) ops) =
        seqIds 1 (ops.map InsertOp.name) ∧
      (applyOps ({} : FullStatePersistence S N R) ops).counter = 1 + ops.length) ∧
    (∀ (c : Nat) (names : List String), 1 ≤ c →
      (∀ nm ∈ names, ':' ∉ nm.data) → (seqIds c names).Nodup) ∧
    (∀ (p : FullStatePersistence S N R) (cd : String × String)
        (docs : List (SnapDoc S N R)), p.codec = some cd →
      (∀ d ∈ docs, docId d = none) →
      ∃ p2, p.load_json docs = Except.ok p2 ∧
        idsOf p2 = seqIds p.counter (docs.map docName) ∧
        p2.counter = p.counter + docs.length) := by
  refine ⟨?_, seqIds_nodup, ?_⟩
  · intro ops
    have h := applyOps_spec ops ({} : FullStatePersistence S N R)
    exact ⟨by simpa [idsOf] using h.1, by simpa using h.2⟩
  · intro p cd docs hc hmiss
    have h := assignIds_all_missing docs p.counter hmiss
    refine ⟨⟨p.deep_copy, (assignIds p.counter docs).1, p.codec,
        (assignIds p.counter docs).2⟩, ?_, ?_, ?_⟩
    · unfold FullStatePersistence.load_json
      rw [hc]
    · exact h.1
    · exact h.2

/-- C6 witness: three insertions on a fresh store yield IDs `Foo:1`,
`Bar:2`, `end:3`; loading two ID-less documents into a store whose counter
is 4 yields `Foo:4`, `end:5`. -/
theorem c6_snapshot_id_allocation_witness :
    idsOf (applyOps ({} : FullStatePersistence Nat Nat Nat)
        [InsertOp.node 1 7 "Foo", InsertOp.node 2 8 "Bar", InsertOp.endSnap 2 4 9]) =
      ["Foo:1", "Bar:2", "end:3"] ∧
    ∃ p2, FullStatePersistence.load_json
        (⟨true, [], some ("MyState", "int"), 4⟩ : FullStatePersistence Nat Nat Nat)
        [SnapDoc.node ⟨2, 7, "Foo", some 0, some 123, Status.created, none⟩,
         SnapDoc.endSnap ⟨42, 5, 0, none⟩] = Except.ok p2 ∧
      idsOf p2 = ["Foo:4", "end:5"] ∧ p2.counter = 6 := by
  constructor
  · have h := (@c6_snapshot_id_allocation Nat Nat Nat).1
      [InsertOp.node 1 7 "Foo", InsertOp.node 2 8 "Bar", InsertOp.endSnap 2 4 9]
    rw [h.1]
    decide
  · obtain ⟨p2, h1, h2, h3⟩ := (@c6_snapshot_id_allocation Nat Nat Nat).2.2
      ⟨true, [], some ("MyState", "int"), 4⟩ ("MyState", "int")
      [SnapDoc.node ⟨2, 7, "Foo", some 0, some 123, Status.created, none⟩,
       SnapDoc.endSnap ⟨42, 5, 0, none⟩] rfl (by decide)
    refine ⟨p2, h1, ?_, ?_⟩
    · rw [h2]
      decide
    · exact h3

/-- C9: missing-node setup-error messages follow the documented formats:
one missing node with one referrer yields a single sentence; one missing
node with several referrers lists them separated by commas with a final
`and`; several missing nodes yield a multi-line report headed by a summary
line, one line per missing node, each listing its referrers. -/
theorem c9_missing_node_message_formats :
    (∀ x y, missingNodesMessage [(x, [y])] =
      "`" ++ x ++ "` is referenced by `" ++ y ++ "` but not included in the graph.") ∧
    (∀ x a b c, missingNodesMessage [(x, [a, b, c])] =
      "`" ++ x ++ "` is referenced by `" ++ a ++ "`, `" ++ b ++ "`, and `" ++ c ++
        "` but not included in the graph.") ∧
    (∀ m1 m2 rest, missingNodesMessage (m1 :: m2 :: rest) =
      String.intercalate "\n"
        ("Nodes are referenced in the graph but not included in the graph:" ::
          (m1 :: m2 :: rest).map (fun m =>
            " " ++ quoteName m.1 ++ " is referenced by " ++ referrerList m.2))) ∧
    (missingNodesMessage [("String2Length", ["Float2String"])] =
      "`String2Length` is referenced by `Float2String` but not included in the graph.") ∧
    (missingNodesMessage [("Eggs", ["Foo", "Bar", "Spam"])] =
      "`Eggs` is referenced by `Foo`, `Bar`, and `Spam` but not included in the graph.") ∧
    (missingNodesMessage [("Bar", ["Foo"]), ("Spam", ["Foo"])] =
      "Nodes are referenced in the graph but not included in the graph:\n `Bar` is referenced by `Foo`\n `Spam` is referenced by `Foo`") := by
  refine ⟨?_, ?_, ?_, by decide, by decide, by decide⟩
  · intro x y
    apply String.ext
    simp [missingNodesMessage, referrerList, quoteName, String.data_append]
  · intro x a b c
    apply String.ext
    simp [missingNodesMessage, referrerList, quoteName, String.data_append]
  · intro m1 m2 rest
    rfl

/-- Lookup in a history whose matching element is the appended last one. -/
theorem find_append_last {S N R : Type} (sid : String) :
    ∀ (l : List (Snapshot S N R)) (x : Snapshot S N R),
      (∀ s ∈ l, Snapshot.id s ≠ sid) → Snapshot.id x = sid →
      (l ++ [x]).find? (fun s => s.id == sid) = some x := by
  intro l
  induction l with
  | nil =>
    intro x _ hx
    simp [List.find?, hx]
  | cons s rest ih =>
    intro x hl hx
    have hs : (s.id == sid) = false := by
      simp only [beq_eq_false_iff_ne, ne_eq]
      exact hl s (by simp)
    rw [List.cons_append, List.find?_cons]
    simp only [hs]
    exact ih x (fun t ht => hl t (by simp [ht])) hx

/-- First-match update when the matching element is the appended last
node snapshot. -/
theorem updateFirstNode_append_last {S N R : Type} (sid : String)
    (f : NodeSnapshot S N → NodeSnapshot S N) :
    ∀ (l : List (Snapshot S N R)) (ns : NodeSnapshot S N),
      (∀ s ∈ l, Snapshot.id s ≠ sid) → ns.id = sid →
      updateFirstNode sid f (l ++ [Snapshot.node ns]) =
        l ++ [Snapshot.node (f ns)] := by
  intro l
  induction l with
  | nil =>
    intro ns _ hx
    simp [updateFirstNode, hx]
  | cons s rest ih =>
    intro ns hl hx
    have hs : (s.id == sid) = false := by
      simp only [beq_eq_false_iff_ne, ne_eq]
      exact hl s (by simp)
    rw [List.cons_append]
    simp only [updateFirstNode, hs, Bool.false_eq_true, if_false]
    rw [ih ns (fun t ht => hl t (by simp [ht])) hx]
    simp

/-- With trivial copy operations, `prep_state` is the identity whatever the
deep-copy flag is. -/
theorem prep_state_idOps {S N R : Type} (dc : Bool) (w : Unit) (s : S) :
    prep_state (idOps S N R) dc w s = (w, s) := by
  unfold prep_state idOps
  split <;> rfl

/-- `snapshot_node` with trivial copy operations, written out. -/
theorem snapshot_node_idOps {S N R : Type} (p : FullStatePersistence S N R)
    (st : S) (nd : N) (nid : String) :
    FullStatePersistence.snapshot_node (idOps S N R) p () st nd nid =
      (⟨p.deep_copy,
        p.history ++
          [Snapshot.node ⟨st, nd, nid, none, none, Status.created, mkId nid p.counter⟩],
        p.codec, p.counter + 1⟩, ()) := by
  unfold FullStatePersistence.snapshot_node
  rw [prep_state_idOps]
  cases hb : p.deep_copy <;> simp [idOps, hb]

/-- `snapshot_end` with trivial copy operations, written out. -/
theorem snapshot_end_idOps {S N R : Type} (p : FullStatePersistence S N R)
    (st : S) (r : R) (now : Nat) :
    FullStatePersistence.snapshot_end (idOps S N R) p () st r now =
      (⟨p.deep_copy,
        p.history ++ [Snapshot.endSnap ⟨st, r, now, mkId "end" p.counter⟩],
        p.codec, p.counter + 1⟩, ()) := by
  unfold FullStatePersistence.snapshot_end
  rw [prep_state_idOps]
  cases hb : p.deep_copy <;> simp [idOps, hb]

/-- One run-loop iteration whose body raises: the recording region exits
abnormally. When the exception is an `Exception` the snapshot is marked
error with the elapsed duration; otherwise (cancellation) it stays running.
Either way the exception propagates and the loop stops. -/
theorem runLoop_raise {S N R : Type} (run : N → S → Except Exn (Step N R × S))
    (now elapsed : Nat) (p : FullStatePersistence S N R) (state : S)
    (cursor : N) (cursor_id : String) (fuel : Nat) (e : Exn)
    (hold : ∀ s ∈ p.history, Snapshot.id s ≠ mkId cursor_id p.counter)
    (hout : run cursor state = Except.error e) :
    runLoop run now elapsed p state cursor cursor_id (fuel + 1) =
      (Except.error (RunErr.exn e),
       if e.isException then
         ⟨p.deep_copy,
          p.history ++ [Snapshot.node ⟨state, cursor, cursor_id, some now,
            some elapsed, Status.error, mkId cursor_id p.counter⟩],
          p.codec, p.counter + 1⟩
       else
         ⟨p.deep_copy,
          p.history ++ [Snapshot.node ⟨state, cursor, cursor_id, some now,
            none, Status.running, mkId cursor_id p.counter⟩],
          p.codec, p.counter + 1⟩) := by
  have hfind := find_append_last (mkId cursor_id p.counter) p.history
    (Snapshot.node ⟨state, cursor, cursor_id, none, none, Status.created,
      mkId cursor_id p.counter⟩) hold rfl
  have hupd1 := updateFirstNode_append_last (mkId cursor_id p.counter)
    (fun s => s.enterRun now) p.history
    ⟨state, cursor, cursor_id, none, none, Status.created, mkId cursor_id p.counter⟩
    hold rfl
  have hupd2 := updateFirstNode_append_last (mkId cursor_id p.counter)
    (fun s => s.exitRun elapsed false) p.history
    ⟨state, cursor, cursor_id, some now, none, Status.running, mkId cursor_id p.counter⟩
    hold rfl
  cases hb : e.isException
  · simp only [runLoop, snapshot_node_idOps, hout, hb,
      FullStatePersistence.record_run, FullStatePersistence.record_enter,
      FullStatePersistence.find_snapshot, FullStatePersistence.record_exit,
      hfind, hupd1, hupd2]
    rfl
  · have hupd12 : updateFirstNode (mkId cursor_id p.counter)
        (fun s => s.exitRun elapsed false)
        (updateFirstNode (mkId cursor_id p.counter) (fun s => s.enterRun now)
          (p.history ++ [Snapshot.node ⟨state, cursor, cursor_id, none, none,
            Status.created, mkId cursor_id p.counter⟩])) =
        p.history ++ [Snapshot.node ⟨state, cursor, cursor_id, some now,
          some elapsed, Status.error, mkId cursor_id p.counter⟩] := by
      rw [hupd1]
      exact updateFirstNode_append_last _ _ p.history _ hold rfl
    simp only [runLoop, snapshot_node_idOps, hout, hb,
      FullStatePersistence.record_run, FullStatePersistence.record_enter,
      FullStatePersistence.find_snapshot, FullStatePersistence.record_exit,
      hfind, if_true, Except.map, hupd12]

/-- One run-loop iteration whose body returns `End(r)`: the snapshot is
marked success with the elapsed duration and an end snapshot is appended. -/
theorem runLoop_done {S N R : Type} (run : N → S → Except Exn (Step N R × S))
    (now elapsed : Nat) (p : FullStatePersistence S N R) (state : S)
    (cursor : N) (cursor_id : String) (fuel : Nat) (r : R) (s2 : S)
    (hold : ∀ s ∈ p.history, Snapshot.id s ≠ mkId cursor_id p.counter)
    (hout : run cursor state = Except.ok (Step.done r, s2)) :
    runLoop run now elapsed p state cursor cursor_id (fuel + 1) =
      (Except.ok (r, s2),
       ⟨p.deep_copy,
        (p.history ++ [Snapshot.node ⟨state, cursor, cursor_id, some now,
          some elapsed, Status.success, mkId cursor_id p.counter⟩]) ++
          [Snapshot.endSnap ⟨s2, r, now, mkId "end" (p.counter + 1)⟩],
        p.codec, p.counter + 1 + 1⟩) := by
  have hfind := find_append_last (mkId cursor_id p.counter) p.history
    (Snapshot.node ⟨state, cursor, cursor_id, none, none, Status.created,
      mkId cursor_id p.counter⟩) hold rfl
  have hupd1 := updateFirstNode_append_last (mkId cursor_id p.counter)
    (fun s => s.enterRun now) p.history
    ⟨state, cursor, cursor_id, none, none, Status.created, mkId cursor_id p.counter⟩
    hold rfl
  have hupd12 : updateFirstNode (mkId cursor_id p.counter)
      (fun s => s.exitRun elapsed true)
      (updateFirstNode (mkId cursor_id p.counter) (fun s => s.enterRun now)
        (p.history ++ [Snapshot.node ⟨state, cursor, cursor_id, none, none,
          Status.created, mkId cursor_id p.counter⟩])) =
      p.history ++ [Snapshot.node ⟨state, cursor, cursor_id, some now,
        some elapsed, Status.success, mkId cursor_id p.counter⟩] := by
    rw [hupd1]
    exact updateFirstNode_append_last _ _ p.history _ hold rfl
  simp only [runLoop, snapshot_node_idOps, hout,
    FullStatePersistence.record_run, FullStatePersistence.record_enter,
    FullStatePersistence.find_snapshot, FullStatePersistence.record_exit,
    hfind, Except.map, hupd12, snapshot_end_idOps]

/-- One run-loop iteration whose body returns another node: the snapshot is
marked success with the elapsed duration and the loop continues on the
returned node. -/
theorem runLoop_next {S N R : Type} (run : N → S → Except Exn (Step N R × S))
    (now elapsed : Nat) (p : FullStatePersistence S N R) (state : S)
    (cursor : N) (cursor_id : String) (fuel : Nat) (n2 : N) (nid : String)
    (s2 : S)
    (hold : ∀ s ∈ p.history, Snapshot.id s ≠ mkId cursor_id p.counter)
    (hout : run cursor state = Except.ok (Step.next n2 nid, s2)) :
    runLoop run now elapsed p state cursor cursor_id (fuel + 1) =
      runLoop run now elapsed
        ⟨p.deep_copy,
         p.history ++ [Snapshot.node ⟨state, cursor, cursor_id, some now,
           some elapsed, Status.success, mkId cursor_id p.counter⟩],
         p.codec, p.counter + 1⟩ s2 n2 nid fuel := by
  have hfind := find_append_last (mkId cursor_id p.counter) p.history
    (Snapshot.node ⟨state, cursor, cursor_id, none, none, Status.created,
      mkId cursor_id p.counter⟩) hold rfl
  have hupd1 := updateFirstNode_append_last (mkId cursor_id p.counter)
    (fun s => s.enterRun now) p.history
    ⟨state, cursor, cursor_id, none, none, Status.created, mkId cursor_id p.counter⟩
    hold rfl
  have hupd12 : updateFirstNode (mkId cursor_id p.counter)
      (fun s => s.exitRun elapsed true)
      (updateFirstNode (mkId cursor_id p.counter) (fun s => s.enterRun now)
        (p.history ++ [Snapshot.node ⟨state, cursor, cursor_id, none, none,
          Status.created, mkId cursor_id p.counter⟩])) =
      p.history ++ [Snapshot.node ⟨state, cursor, cursor_id, some now,
        some elapsed, Status.success, mkId cursor_id p.counter⟩] := by
    rw [hupd1]
    exact updateFirstNode_append_last _ _ p.history _ hold rfl
  simp only [runLoop, snapshot_node_idOps, hout,
    FullStatePersistence.record_run, FullStatePersistence.record_enter,
    FullStatePersistence.find_snapshot, FullStatePersistence.record_exit,
    hfind, Except.map, hupd12]

/-- Under the loop invariant no existing snapshot carries the ID about to
be allocated. -/
theorem GoodHist.old_ids {S N R : Type} {p : FullStatePersistence S N R}
    (hgood : GoodHist p) (cursor_id : String) (hcid : ':' ∉ cursor_id.data) :
    ∀ s ∈ p.history, Snapshot.id s ≠ mkId cursor_id p.counter := by
  intro s hs
  obtain ⟨nm, k, hnm, hk1, hklt, hid⟩ := hgood.2.1 s hs
  rw [hid]
  exact mkId_ne_of_seq_ne hnm hcid hk1 hgood.2.2 (by omega)

/-- If a run-loop execution from a store satisfying the invariant ends with
a propagated node exception, the final history is all node snapshots, its
last entry has status error with the elapsed duration recorded, and all
earlier entries kept status success. -/
theorem runLoop_node_error {S N R : Type}
    (run : N → S → Except Exn (Step N R × S)) (now elapsed : Nat)
    (hids : ∀ n s n2 nid s2, run n s = Except.ok (Step.next n2 nid, s2) →
      ':' ∉ nid.data) :
    ∀ (fuel : Nat) (p : FullStatePersistence S N R) (state : S) (cursor : N)
      (cursor_id : String) (e : Exn) (p2 : FullStatePersistence S N R),
      GoodHist p → ':' ∉ cursor_id.data → e.isException = true →
      runLoop run now elapsed p state cursor cursor_id fuel =
        (Except.error (RunErr.exn e), p2) →
      ∃ ns : NodeSnapshot S N,
        p2.history.getLast? = some (Snapshot.node ns) ∧
        ns.status = Status.error ∧ ns.duration = some elapsed ∧
        (∀ s ∈ p2.history.dropLast, ∃ ms : NodeSnapshot S N,
          s = Snapshot.node ms ∧ ms.status = Status.success) ∧
        (∀ s ∈ p2.history, s.isNode = true) := by
  intro fuel
  induction fuel with
  | zero =>
    intro p state cursor cursor_id e p2 _ _ _ hrun
    simp [runLoop] at hrun
  | succ fuel ih =>
    intro p state cursor cursor_id e p2 hgood hcid hexc hrun
    have hold := GoodHist.old_ids hgood cursor_id hcid
    rcases hout : run cursor state with e2 | v
    · rw [runLoop_raise run now elapsed p state cursor cursor_id fuel e2 hold hout]
        at hrun
      rcases hb : e2.isException
      · simp only [hb, Bool.false_eq_true, if_false] at hrun
        have h1 := congrArg Prod.fst hrun
        simp at h1
        rw [h1] at hb
        rw [hexc] at hb
        exact absurd hb (by decide)
      · simp only [hb, if_true] at hrun
        have h1 := congrArg Prod.fst hrun
        have h2 := congrArg Prod.snd hrun
        simp at h1 h2
        rw [← h2]
        refine ⟨⟨state, cursor, cursor_id, some now, some elapsed, Status.error,
          mkId cursor_id p.counter⟩, ?_, rfl, rfl, ?_, ?_⟩
        · exact List.getLast?_concat _
        · rw [List.dropLast_concat]
          intro s hs
          obtain ⟨ms, hm1, hm2, _⟩ := hgood.1 s hs
          exact ⟨ms, hm1, hm2⟩
        · intro s hs
          rcases List.mem_append.mp hs with h | h
          · obtain ⟨ms, hm1, _, _⟩ := hgood.1 s h
            rw [hm1]
            rfl
          · simp at h
            rw [h]
            rfl
    · rcases v with ⟨step, s2⟩
      rcases step with ⟨n2, nid⟩ | r
      · rw [runLoop_next run now elapsed p state cursor cursor_id fuel n2 nid s2
          hold hout] at hrun
        refine ih _ s2 n2 nid e p2 ?_ (hids cursor state n2 nid s2 hout) hexc hrun
        refine ⟨?_, ?_, ?_⟩
        · intro s hs
          rcases List.mem_append.mp hs with h | h
          · exact hgood.1 s h
          · simp at h
            exact ⟨_, h, rfl, rfl⟩
        · intro s hs
          rcases List.mem_append.mp hs with h | h
          · obtain ⟨nm, k, hnm, hk1, hklt, hid⟩ := hgood.2.1 s h
            exact ⟨nm, k, hnm, hk1, show k < p.counter + 1 by omega, hid⟩
          · simp at h
            refine ⟨cursor_id, p.counter, hcid, hgood.2.2,
              Nat.lt_succ_self p.counter, ?_⟩
            rw [h]
            rfl
        · show 1 ≤ p.counter + 1
          omega
      · rw [runLoop_done run now elapsed p state cursor cursor_id fuel r s2 hold
          hout] at hrun
        have h1 := congrArg Prod.fst hrun
        simp at h1

/-- C7: if a node's run raises during a graph run, the exception propagates
to the caller unchanged; the history retains the failed step as a node
snapshot with status error and a recorded duration, every earlier node
snapshot keeps its success status, and no end snapshot is appended. -/
theorem c7_node_error_propagation {S N R : Type}
    (run : N → S → Except Exn (Step N R × S)) (now elapsed : Nat)
    (hids : ∀ n s n2 nid s2, run n s = Except.ok (Step.next n2 nid, s2) →
      ':' ∉ nid.data) :
    (∀ (p : FullStatePersistence S N R) (state : S) (cursor : N)
        (cursor_id : String) (fuel : Nat) (e : Exn),
      GoodHist p → ':' ∉ cursor_id.data →
      run cursor state = Except.error e → e.isException = true →
      ∃ p2, runLoop run now elapsed p state cursor cursor_id (fuel + 1) =
          (Except.error (RunErr.exn e), p2) ∧
        p2.history = p.history ++ [Snapshot.node ⟨state, cursor, cursor_id,
          some now, some elapsed, Status.error, mkId cursor_id p.counter⟩]) ∧
    (∀ (fuel : Nat) (state : S) (cursor : N) (cursor_id : String) (e : Exn)
        (p2 : FullStatePersistence S N R),
      ':' ∉ cursor_id.data → e.isException = true →
      runLoop run now elapsed ({} : FullStatePersistence S N R) state cursor
        cursor_id fuel = (Except.error (RunErr.exn e), p2) →
      ∃ ns : NodeSnapshot S N,
        p2.history.getLast? = some (Snapshot.node ns) ∧
        ns.status = Status.error ∧ ns.duration = some elapsed ∧
        (∀ s ∈ p2.history.dropLast, ∃ ms : NodeSnapshot S N,
          s = Snapshot.node ms ∧ ms.status = Status.success) ∧
        (∀ s ∈ p2.history, s.isNode = true)) := by
  constructor
  · intro p state cursor cursor_id fuel e hgood hcid hout hexc
    have hold := GoodHist.old_ids hgood cursor_id hcid
    have hr := runLoop_raise run now elapsed p state cursor cursor_id fuel e hold hout
    simp only [hexc, if_true] at hr
    exact ⟨_, hr, rfl⟩
  · intro fuel state cursor cursor_id e p2 hcid hexc hrun
    refine runLoop_node_error run now elapsed hids fuel _ state cursor cursor_id
      e p2 ⟨?_, ?_, ?_⟩ hcid hexc hrun
    · intro s hs
      simp at hs
    · intro s hs
      simp at hs
    · exact le_refl 1

/-- C7 witness: the two-node scenario of `test_node_error` — `Foo` returns
`Spam`, `Spam` raises — evaluated concretely. -/
theorem c7_node_error_propagation_witness :
    ∃ ns : NodeSnapshot Nat Nat,
      (⟨true,
        [Snapshot.node ⟨0, 0, "Foo", some 5, some 3, Status.success, "Foo:1"⟩,
         Snapshot.node ⟨0, 1, "Spam", some 5, some 3, Status.error, "Spam:2"⟩],
        none, 3⟩ : FullStatePersistence Nat Nat Nat).history.getLast? =
        some (Snapshot.node ns) ∧
      ns.status = Status.error ∧ ns.duration = some 3 ∧
      (∀ s ∈ (⟨true,
        [Snapshot.node ⟨0, 0, "Foo", some 5, some 3, Status.success, "Foo:1"⟩,
         Snapshot.node ⟨0, 1, "Spam", some 5, some 3, Status.error, "Spam:2"⟩],
        none, 3⟩ : FullStatePersistence Nat Nat Nat).history.dropLast,
        ∃ ms : NodeSnapshot Nat Nat,
          s = Snapshot.node ms ∧ ms.status = Status.success) ∧
      (∀ s ∈ (⟨true,
        [Snapshot.node ⟨0, 0, "Foo", some 5, some 3, Status.success, "Foo:1"⟩,
         Snapshot.node ⟨0, 1, "Spam", some 5, some 3, Status.error, "Spam:2"⟩],
        none, 3⟩ : FullStatePersistence Nat Nat Nat).history,
        s.isNode = true) := by
  have hids : ∀ (n s n2 : Nat) (nid : String) (s2 : Nat),
      (fun (n st : Nat) => if n = 0
        then Except.ok (Step.next 1 "Spam", st)
        else (Except.error ⟨true, "RuntimeError"⟩ : Except Exn (Step Nat Nat × Nat)))
        n s = Except.ok (Step.next n2 nid, s2) → ':' ∉ nid.data := by
    intro n s n2 nid s2 h
    by_cases hn : n = 0
    · subst hn
      simp at h
      obtain ⟨⟨-, h3⟩, -⟩ := h
      subst h3
      decide
    · simp [hn] at h
  exact (c7_node_error_propagation
    (fun (n st : Nat) => if n = 0
      then Except.ok (Step.next 1 "Spam", st)
      else (Except.error ⟨true, "RuntimeError"⟩ : Except Exn (Step Nat Nat × Nat)))
    5 3 hids).2 2 0 0 "Foo" ⟨true, "RuntimeError"⟩
    ⟨true,
      [Snapshot.node ⟨0, 0, "Foo", some 5, some 3, Status.success, "Foo:1"⟩,
       Snapshot.node ⟨0, 1, "Spam", some 5, some 3, Status.error, "Spam:2"⟩],
      none, 3⟩ (by decide) rfl rfl
